import Mathlib

/-!
Verification of the x402 payment gateway / CRE workflow orchestration core.

The development shallowly embeds the TypeScript sources:
  * `x402-verifier.ts` (proof decoding, classification, verification),
  * `payment-gateway.ts` (`X402CREPaymentGateway.invoke`, `orchestrateAgentTask`),
  * `agent-client.ts` (`AgentClient.batchInvoke`),
  * `workflow-orchestrator.ts` (`WorkflowOrchestrator.orchestrate`).

JavaScript runtime values are modelled by `JsVal`; JavaScript numbers are
modelled as exact integers/rationals (the code only ever consumes
string-encoded integer amounts and integer-valued JSON numbers).  Thrown
JavaScript exceptions are modelled by `Except JsErr`.  Wall-clock timing
fields (`executionMs`, `totalExecutionMs`) and random identifiers
(UUIDs, nonces) are passed in as explicit parameters or omitted where the
code only records them.
-/

/-- A JavaScript runtime value as it can appear when consuming parsed JSON:
`undefined` is included because property access on objects yields it for
missing keys. JSON numbers are modelled as integers (the sources only carry
integer-valued numbers: `x402Version`, `timestamp`). -/
inductive JsVal where
  | undefined : JsVal
  | null : JsVal
  | bool : Bool → JsVal
  | num : Int → JsVal
  | str : String → JsVal
  | arr : List JsVal → JsVal
  | obj : List (String × JsVal) → JsVal

/-- Last-binding-wins lookup, matching `JSON.parse` duplicate-key semantics. -/
def lookupLast (fs : List (String × JsVal)) (k : String) : Option JsVal :=
  fs.foldl (fun acc p => if p.1 = k then some p.2 else acc) none

/-- A thrown JavaScript exception (only the class matters for the model). -/
inductive JsErr where
  | typeError : JsErr
  | syntaxError : JsErr
deriving DecidableEq

/-- Property access `v[k]`: throws `TypeError` on `null`/`undefined`,
yields the field for objects (missing key gives `undefined`), and
`undefined` for primitives and for non-index keys on arrays. -/
def jsGet : JsVal → String → Except JsErr JsVal
  | .undefined, _ => .error .typeError
  | .null, _ => .error .typeError
  | .obj fs, k => .ok ((lookupLast fs k).getD .undefined)
  | _, _ => .ok .undefined

/-- The `in` operator restricted to the named keys the sources test
(arrays carry only index keys, so named-key membership is false). -/
def hasKey : JsVal → String → Bool
  | .obj fs, k => fs.any (fun p => p.1 = k)
  | _, _ => false

/-- Nullish coalescing `v ?? d`. -/
def nullishD (v d : JsVal) : JsVal :=
  match v with
  | .undefined => d
  | .null => d
  | _ => v

/-- JavaScript truthiness. -/
def jsTruthy : JsVal → Bool
  | .undefined => false
  | .null => false
  | .bool b => b
  | .num n => n ≠ 0
  | .str s => s ≠ ""
  | .arr _ => true
  | .obj _ => true

/-- `typeof v === "object"` (true for `null`, arrays and plain objects). -/
def typeofObject : JsVal → Bool
  | .null => true
  | .arr _ => true
  | .obj _ => true
  | _ => false

/-- The decimal digit character for `n % 10`. -/
def digitChar (n : Nat) : Char :=
  match n % 10 with
  | 0 => '0' | 1 => '1' | 2 => '2' | 3 => '3' | 4 => '4'
  | 5 => '5' | 6 => '6' | 7 => '7' | 8 => '8' | _ => '9'

/-- Fuel-driven digit recursion (structural, so that closed terms reduce
in the kernel); `natDigits` supplies enough fuel. -/
def natDigitsGo : Nat → Nat → List Char
  | 0, n => [digitChar n]
  | fuel + 1, n =>
    if n < 10 then [digitChar n]
    else natDigitsGo fuel (n / 10) ++ [digitChar n]

/-- Standard decimal digit list of a natural number (most significant first),
modelling `Number.prototype.toString` / `BigInt.prototype.toString`. -/
def natDigits (n : Nat) : List Char := natDigitsGo n n

theorem natDigitsGo_irrel (fuel : Nat) : ∀ (fuel' n : Nat), n ≤ fuel → n ≤ fuel' →
    natDigitsGo fuel n = natDigitsGo fuel' n := by
  induction fuel with
  | zero =>
    intro fuel' n h h'
    interval_cases n
    cases fuel' with
    | zero => rfl
    | succ f => simp [natDigitsGo]
  | succ f ih =>
    intro fuel' n h h'
    cases fuel' with
    | zero =>
      interval_cases n
      simp [natDigitsGo]
    | succ f' =>
      simp only [natDigitsGo]
      by_cases h10 : n < 10
      · simp [h10]
      · simp only [h10, if_false]
        have hd : n / 10 ≤ f := by omega
        have hd' : n / 10 ≤ f' := by omega
        rw [ih f' (n / 10) hd hd']

/-- The recursive unfolding of `natDigits`. -/
theorem natDigits_eq (n : Nat) :
    natDigits n = if n < 10 then [digitChar n] else natDigits (n / 10) ++ [digitChar n] := by
  by_cases h10 : n < 10
  · cases hn : n with
    | zero => simp [natDigits, natDigitsGo, h10]
    | succ m =>
      rw [← hn]
      unfold natDigits
      rw [hn]
      simp only [natDigitsGo]
      rw [← hn]
      simp [h10]
  · cases hn : n with
    | zero => omega
    | succ m =>
      rw [← hn]
      unfold natDigits
      rw [hn]
      simp only [natDigitsGo]
      rw [← hn]
      simp only [h10, if_false]
      have : natDigitsGo m (n / 10) = natDigitsGo (n / 10) (n / 10) := by
        apply natDigitsGo_irrel
        · omega
        · omega
      rw [this]

/-- Decimal rendering of a natural number. -/
def natToDecimal (n : Nat) : String := String.mk (natDigits n)

/-- Decimal rendering of an integer, as `toString` produces it. -/
def intToDecimal (i : Int) : String :=
  if i < 0 then String.mk ('-' :: natDigits i.natAbs) else String.mk (natDigits i.natAbs)

/-- Value of a list of decimal digit characters (most significant first). -/
def decDigitsToNat (l : List Char) : Nat :=
  l.foldl (fun acc c => 10 * acc + (c.toNat - 48)) 0

/-- JavaScript whitespace for the purposes of `BigInt(string)` / `parseInt`. -/
def isWs (c : Char) : Bool := c = ' ' ∨ c = '\t' ∨ c = '\n' ∨ c = '\r'

/-- Strip leading and trailing whitespace from a character list. -/
def stripWs (l : List Char) : List Char :=
  ((l.dropWhile isWs).reverse.dropWhile isWs).reverse

/-- `BigInt(string)` on the decimal fragment of the grammar: empty (after
trimming) is `0`, an optional sign followed by decimal digits parses
exactly, anything else throws `SyntaxError`. -/
def strToBigIntChars (l : List Char) : Except JsErr Int :=
  match stripWs l with
  | [] => .ok 0
  | '-' :: rest =>
    if rest ≠ [] ∧ rest.all Char.isDigit then .ok (-(decDigitsToNat rest : Int))
    else .error .syntaxError
  | '+' :: rest =>
    if rest ≠ [] ∧ rest.all Char.isDigit then .ok (decDigitsToNat rest : Int)
    else .error .syntaxError
  | l' =>
    if l'.all Char.isDigit then .ok (decDigitsToNat l' : Int)
    else .error .syntaxError

/-- `BigInt(string)`. -/
def strToBigInt (s : String) : Except JsErr Int := strToBigIntChars s.data

mutual

/-- `String(v)` coercion. -/
def jsString : JsVal → String
  | .undefined => "undefined"
  | .null => "null"
  | .bool b => if b then "true" else "false"
  | .num n => intToDecimal n
  | .str s => s
  | .arr xs => String.intercalate "," (jsStringList xs)
  | .obj _ => "[object Object]"

/-- Elementwise string coercion used by `Array.prototype.toString`
(`null`/`undefined` elements render as the empty string). -/
def jsStringList : List JsVal → List String
  | [] => []
  | v :: vs =>
    (match v with
     | .undefined => ""
     | .null => ""
     | w => jsString w) :: jsStringList vs

end

/-- `BigInt(v)`: throws `TypeError` on `null`/`undefined`, maps booleans to
0/1, integers to themselves, strings through the string grammar, and
arrays/objects through their `String(...)` coercion. -/
def jsBigInt : JsVal → Except JsErr Int
  | .undefined => .error .typeError
  | .null => .error .typeError
  | .bool b => .ok (if b then 1 else 0)
  | .num n => .ok n
  | .str s => strToBigInt s
  | .arr xs => strToBigInt (jsString (.arr xs))
  | .obj fs => strToBigInt (jsString (.obj fs))

/-- `parseInt` on a character list: skip leading whitespace, optional sign,
then the longest prefix of decimal digits; `none` models `NaN`. -/
def parseIntChars (l : List Char) : Option Int :=
  match l.dropWhile isWs with
  | '-' :: rest =>
    let ds := rest.takeWhile Char.isDigit
    if ds = [] then none else some (-(decDigitsToNat ds : Int))
  | '+' :: rest =>
    let ds := rest.takeWhile Char.isDigit
    if ds = [] then none else some (decDigitsToNat ds : Int)
  | l' =>
    let ds := l'.takeWhile Char.isDigit
    if ds = [] then none else some (decDigitsToNat ds : Int)

/-- `parseInt(v)` after the code's `?? "0"` defaulting (`none` = `NaN`). -/
def jsParseInt (v : JsVal) : Option Int := parseIntChars (jsString v).data

/-- Does the text start with the pattern? (pattern first). -/
def startsWithChars : List Char → List Char → Bool
  | [], _ => true
  | _ :: _, [] => false
  | a :: as, b :: bs => a = b && startsWithChars as bs

/-- Substring occurrence on character lists. -/
def hasSubChars (pat : List Char) : List Char → Bool
  | [] => startsWithChars pat []
  | c :: cs => startsWithChars pat (c :: cs) || hasSubChars pat cs

/-- `String.prototype.includes` (substring membership; the empty pattern
is always contained). -/
def jsIncludes (s sub : String) : Bool := hasSubChars sub.data s.data

/-- `Math.round`: round half toward positive infinity. -/
def jsMathRound (q : ℚ) : Int := ⌊q + 1/2⌋

/-- Receiver check for calling a string method (`.toLowerCase()`):
throws `TypeError` unless the value is a string. -/
def asStr : JsVal → Except JsErr String
  | .str s => .ok s
  | _ => .error .typeError

/-- ASCII lowercasing of one character (the addresses the comparisons are
applied to are ASCII hex strings). -/
def jsToLowerChar (c : Char) : Char :=
  if c.toNat ≥ 65 ∧ c.toNat ≤ 90 then Char.ofNat (c.toNat + 32) else c

/-- `String.prototype.toLowerCase` on ASCII strings. -/
def jsToLower (s : String) : String := String.mk (s.data.map jsToLowerChar)

/-- Decidable equality of `Except` results (for evaluating closed runs). -/
instance {ε α : Type} [DecidableEq ε] [DecidableEq α] : DecidableEq (Except ε α) := fun a b =>
  match a, b with
  | .error e, .error f => if h : e = f then .isTrue (by rw [h]) else .isFalse (by simp [h])
  | .ok x, .ok y => if h : x = y then .isTrue (by rw [h]) else .isFalse (by simp [h])
  | .error _, .ok _ => .isFalse (by simp)
  | .ok _, .error _ => .isFalse (by simp)

-- ── Round-trip lemmas for the decimal codec ─────────────────────────────────

theorem decDigitsToNat_append (l : List Char) (c : Char) :
    decDigitsToNat (l ++ [c]) = 10 * decDigitsToNat l + (c.toNat - 48) := by
  simp [decDigitsToNat, List.foldl_append]

theorem natDigits_ne_nil (n : Nat) : natDigits n ≠ [] := by
  rw [natDigits_eq]
  split <;> simp

theorem digitChar_isDigit (n : Nat) : (digitChar n).isDigit = true := by
  unfold digitChar
  have h : n % 10 < 10 := Nat.mod_lt _ (by omega)
  generalize hm : n % 10 = m at h ⊢
  interval_cases m <;> decide

theorem digitChar_toNat (n : Nat) : (digitChar n).toNat = 48 + n % 10 := by
  unfold digitChar
  have h : n % 10 < 10 := Nat.mod_lt _ (by omega)
  generalize hm : n % 10 = m at h ⊢
  interval_cases m <;> rfl

theorem natDigits_all_digit (n : Nat) : (natDigits n).all Char.isDigit = true := by
  induction n using Nat.strong_induction_on with
  | _ n ih =>
    rw [natDigits_eq]
    split
    · simp [digitChar_isDigit]
    · rename_i h
      have hlt : n / 10 < n := Nat.div_lt_self (by omega) (by omega)
      simp [List.all_append, ih _ hlt, digitChar_isDigit]

theorem decDigitsToNat_natDigits (n : Nat) : decDigitsToNat (natDigits n) = n := by
  induction n using Nat.strong_induction_on with
  | _ n ih =>
    rw [natDigits_eq]
    split
    · rename_i h
      simp [decDigitsToNat, digitChar_toNat]
      omega
    · rename_i h
      have hlt : n / 10 < n := Nat.div_lt_self (by omega) (by omega)
      rw [decDigitsToNat_append, ih _ hlt, digitChar_toNat]
      omega

theorem isDigit_not_ws (c : Char) (h : c.isDigit = true) : isWs c = false := by
  simp only [Char.isDigit] at h
  simp only [isWs, decide_eq_false_iff_not]
  rintro (rfl | rfl | rfl | rfl) <;> simp_all

theorem stripWs_eq_self (l : List Char) (h : ∀ c ∈ l, isWs c = false) :
    stripWs l = l := by
  have h1 : l.dropWhile isWs = l := by
    cases l with
    | nil => rfl
    | cons a as =>
      rw [List.dropWhile_cons_of_neg]
      simp [h a (by simp)]
  have h2 : l.reverse.dropWhile isWs = l.reverse := by
    cases hrev : l.reverse with
    | nil => rfl
    | cons a as =>
      rw [List.dropWhile_cons_of_neg]
      have : a ∈ l.reverse := by rw [hrev]; simp
      simp [h a (List.mem_reverse.mp this)]
  simp [stripWs, h1, h2]

theorem natDigits_no_ws (n : Nat) : ∀ c ∈ natDigits n, isWs c = false := by
  intro c hc
  have h := natDigits_all_digit n
  rw [List.all_eq_true] at h
  exact isDigit_not_ws c (h c hc)

theorem stripWs_natDigits (n : Nat) : stripWs (natDigits n) = natDigits n :=
  stripWs_eq_self _ (natDigits_no_ws n)

theorem stripWs_neg_digits (n : Nat) : stripWs ('-' :: natDigits n) = '-' :: natDigits n := by
  apply stripWs_eq_self
  intro c hc
  rcases List.mem_cons.mp hc with rfl | hm
  · decide
  · exact natDigits_no_ws n c hm


theorem strToBigIntChars_digits (l : List Char) (hne : l ≠ [])
    (hall : l.all Char.isDigit = true) (hstrip : stripWs l = l) :
    strToBigIntChars l = .ok (decDigitsToNat l : Int) := by
  unfold strToBigIntChars
  rw [hstrip]
  split
  · exact absurd rfl hne
  · rw [List.all_eq_true] at hall
    have := hall '-' (by simp)
    simp [Char.isDigit] at this
  · rw [List.all_eq_true] at hall
    have := hall '+' (by simp)
    simp [Char.isDigit] at this
  · rw [if_pos hall]

theorem strToBigIntChars_neg_digits (ds : List Char) (hne : ds ≠ [])
    (hall : ds.all Char.isDigit = true) :
    strToBigIntChars ('-' :: ds) = .ok (-(decDigitsToNat ds : Int)) := by
  have hstrip : stripWs ('-' :: ds) = '-' :: ds := by
    apply stripWs_eq_self
    intro c hc
    rcases List.mem_cons.mp hc with rfl | hm
    · decide
    · exact isDigit_not_ws c (by rw [List.all_eq_true] at hall; exact hall c hm)
  unfold strToBigIntChars
  rw [hstrip]
  simp only [ne_eq, hne, not_false_iff, true_and, hall, if_true]

/-- `BigInt` inverts the decimal rendering of an integer. -/
theorem strToBigInt_intToDecimal (m : Int) : strToBigInt (intToDecimal m) = .ok m := by
  unfold strToBigInt intToDecimal
  split
  · rename_i hneg
    show strToBigIntChars ('-' :: natDigits m.natAbs) = _
    rw [strToBigIntChars_neg_digits _ (natDigits_ne_nil _) (natDigits_all_digit _)]
    rw [decDigitsToNat_natDigits]
    congr 1
    omega
  · rename_i hpos
    show strToBigIntChars (natDigits m.natAbs) = _
    rw [strToBigIntChars_digits _ (natDigits_ne_nil _) (natDigits_all_digit _)
      (stripWs_natDigits _)]
    rw [decDigitsToNat_natDigits]
    congr 1
    omega

theorem parseIntChars_digits (l : List Char) (hne : l ≠ [])
    (hall : l.all Char.isDigit = true) :
    parseIntChars l = some (decDigitsToNat l : Int) := by
  have hdrop : l.dropWhile isWs = l := by
    cases l with
    | nil => rfl
    | cons a as =>
      rw [List.dropWhile_cons_of_neg]
      rw [List.all_eq_true] at hall
      simp [isDigit_not_ws a (hall a (by simp))]
  have htake : l.takeWhile Char.isDigit = l := by
    rw [List.takeWhile_eq_self_iff]
    intro c hc
    rw [List.all_eq_true] at hall
    exact hall c hc
  unfold parseIntChars
  rw [hdrop]
  split
  · rw [List.all_eq_true] at hall
    have := hall '-' (by simp)
    simp [Char.isDigit] at this
  · rw [List.all_eq_true] at hall
    have := hall '+' (by simp)
    simp [Char.isDigit] at this
  · simp only [htake]
    simp [hne]

/-- `parseInt` recovers a nonnegative integer from its decimal rendering. -/
theorem jsParseInt_natToDecimal (n : Nat) :
    jsParseInt (.str (natToDecimal n)) = some (n : Int) := by
  unfold jsParseInt jsString natToDecimal
  show parseIntChars (natDigits n) = _
  rw [parseIntChars_digits _ (natDigits_ne_nil _) (natDigits_all_digit _)]
  rw [decDigitsToNat_natDigits]

-- ── x402-verifier.ts : data model ───────────────────────────────────────────

/-- The two failure modes of `decodePaymentProof` (each names one `throw`
site in the source: neither base64-JSON nor raw JSON parsed / parsed value
is not a JSON object). -/
inductive DecodeErr where
  | invalidFormat : DecodeErr
  | notJsonObject : DecodeErr
deriving DecidableEq

/-- Structured model of the verifier's error strings.  Each constructor
corresponds to one template string in the source and carries exactly the
data the source interpolates into the message. -/
inductive VerifyError where
  /-- `"Missing x402 payment proof (x-payment header required)"` -/
  | missingProof : VerifyError
  /-- `"Failed to decode payment proof: …"` -/
  | decodeFailed : DecodeErr → VerifyError
  /-- `"Unrecognized payment proof format"` -/
  | unrecognizedFormat : VerifyError
  /-- `"Payment recipient mismatch: expected …, got …"` -/
  | recipientMismatch : String → String → VerifyError
  /-- `"Insufficient payment: required … USDC, got … USDC"`; the second
  field is the received amount in human-decimal form (`Number(amount)/1e6`). -/
  | insufficientAmount : ℚ → ℚ → VerifyError
  /-- `"Payment not yet valid (validAfter: …)"` -/
  | notYetValid : Int → VerifyError
  /-- `"Payment expired (validBefore: …)"` -/
  | expired : Int → VerifyError
  /-- `"EIP-712 signature verification failed: …"` -/
  | signatureInvalid : VerifyError
  /-- `"EIP-712 verification error: …"` -/
  | eip712Error : VerifyError
  /-- gateway fallback `"Payment verification failed"` -/
  | genericFailure : VerifyError
  /-- task fallback `"Gateway denied request"` -/
  | gatewayDenied : VerifyError
deriving DecidableEq

/-- `X402PaymentVerification` from `types.ts`.  `payer` stays a raw
runtime value because the source never method-calls it (a malformed proof
can leave a non-string there); `recipient` is a string on every path that
constructs a result. -/
structure X402PaymentVerification where
  valid : Bool
  amount : Int
  recipient : String
  payer : JsVal
  txHash : Option String := none
  error : Option VerifyError := none

/-- `X402VerifierConfig` (the fields the verification paths consume). -/
structure X402VerifierConfig where
  recipientAddress : String
  requiredAmountUSDC : ℚ
  simulationMode : Option Bool := none

/-- The uniform `valid=false` result shape used by `verify`'s early
returns (`amount: 0n, recipient: "", payer: ""`). -/
def mkFailVerification (e : VerifyError) : X402PaymentVerification :=
  { valid := false, amount := 0, recipient := "", payer := .str "", error := some e }

-- ── x402-verifier.ts : decoding and classification ──────────────────────────

/-- The object check after parsing: `if (!decoded || typeof decoded !==
"object") throw` — passes exactly for truthy values of object type
(arrays and objects; `null` is falsy). -/
def checkDecodedObject (d : JsVal) : Except DecodeErr JsVal :=
  if jsTruthy d && typeofObject d then .ok d else .error .notJsonObject

/-- `decodePaymentProof`: try base64-then-JSON, fall back to raw JSON,
then require a JSON object.  The ambient JSON/base64 parser is the
external capability `pB64`/`pRaw` (`none` models a `JSON.parse` throw). -/
def decodePaymentProof (pB64 pRaw : String → Option JsVal) (proof : String) :
    Except DecodeErr JsVal :=
  match pB64 proof with
  | some d => checkDecodedObject d
  | none =>
    match pRaw proof with
    | some d => checkDecodedObject d
    | none => .error .invalidFormat

/-- `v !== null`. -/
def jsNotNull : JsVal → Bool
  | .null => false
  | _ => true

/-- Property read used by the classifiers (guaranteed non-throwing there:
the argument has already passed `checkDecodedObject`). -/
def jsGetD (j : JsVal) (k : String) : JsVal :=
  match j with
  | .obj fs => (lookupLast fs k).getD .undefined
  | _ => .undefined

/-- `isRealX402Proof`: object, non-null, has `x402Version` and `payload`
keys, and `payload` is of object type. -/
def isRealX402Proof (j : JsVal) : Bool :=
  typeofObject j && jsNotNull j && hasKey j ("x402Version") && hasKey j ("payload")
    && typeofObject (jsGetD j ("payload"))

/-- `isMockProof`: object, non-null, has `recipient`, `amount`, `payer` keys. -/
def isMockProof (j : JsVal) : Bool :=
  typeofObject j && jsNotNull j && hasKey j ("recipient") && hasKey j ("amount")
    && hasKey j ("payer")

-- ── x402-verifier.ts : proof construction ───────────────────────────────────

/-- The mock-proof JSON value with an explicit micro-unit amount
(randomness — `txHash`, `signature` — and the clock are parameters). -/
def mockProofVal (payer recipient txHash signature : String) (amountMicro : Int)
    (timestamp : Int) : JsVal :=
  .obj [("txHash", .str txHash),
        ("amount", .str (intToDecimal amountMicro)),
        ("recipient", .str recipient),
        ("payer", .str payer),
        ("signature", .str signature),
        ("timestamp", .num timestamp),
        ("network", .str "base-sepolia")]

/-- `createMockPaymentProof`: amount in micro-units is
`Math.round(amountUSDC * 1_000_000)`, rendered via `BigInt(...).toString()`.
The base64/JSON wire encoding is left to the ambient codec. -/
def createMockPaymentProofVal (payer recipient : String) (amountUSDC : ℚ)
    (txHash signature : String) (timestamp : Int) : JsVal :=
  mockProofVal payer recipient txHash signature (jsMathRound (amountUSDC * 1000000)) timestamp

/-- An EIP-3009 authorization object with explicit integer fields. -/
def delegatedAuthVal (fromAddr toAddr : String) (valueMicro validAfter validBefore : Int)
    (nonce : String) : JsVal :=
  .obj [("from", .str fromAddr),
        ("to", .str toAddr),
        ("value", .str (intToDecimal valueMicro)),
        ("validAfter", .str (intToDecimal validAfter)),
        ("validBefore", .str (intToDecimal validBefore)),
        ("nonce", .str nonce)]

/-- The real-x402 proof JSON value around a given authorization. -/
def realProofVal (network signature : String) (auth : JsVal) : JsVal :=
  .obj [("x402Version", .num 1),
        ("scheme", .str "exact"),
        ("network", .str network),
        ("payload", .obj [("signature", .str signature), ("authorization", auth)])]

/-- `createRealX402Proof`: value is `Math.round(amountUSDC * 1_000_000)`,
window is `[now - 60, now + 300)`. -/
def createRealX402ProofVal (fromAddr toAddr : String) (amountUSDC : ℚ)
    (network signature nonce : String) (now : Int) : JsVal :=
  realProofVal network signature
    (delegatedAuthVal fromAddr toAddr (jsMathRound (amountUSDC * 1000000))
      (now - 60) (now + 300) nonce)

-- ── x402-verifier.ts : verification ─────────────────────────────────────────

/-- `now < v` where `v` may be `NaN` (`none`): any comparison with `NaN`
is false. -/
def nanLt (x : Int) (y : Option Int) : Bool :=
  match y with
  | some v => decide (x < v)
  | none => false

/-- `v <= now` where `v` may be `NaN` (`none`). -/
def nanGe (x : Int) (y : Option Int) : Bool :=
  match y with
  | some v => decide (v ≤ x)
  | none => false

/-- The production-mode signature step inside the `try` block: the message
construction coerces `value`, `validAfter`, `validBefore` with `BigInt`
(which can throw), then calls the external `verifyTypedData` capability,
modelled by the oracle `sigVerify`. -/
def strictSigCheck (sigVerify : JsVal → Except JsErr Bool) (auth proof : JsVal) :
    Except JsErr Bool := do
  let v ← jsGet auth ("value")
  let _ ← jsBigInt v
  let va ← jsGet auth ("validAfter")
  let _ ← jsBigInt va
  let vb ← jsGet auth ("validBefore")
  let _ ← jsBigInt vb
  sigVerify proof

/-- The guard cascade of `verifyRealX402Proof` after field extraction:
recipient match, amount floor, validity window, then simulation shortcut
or EIP-712 verification (whose throws the source catches). -/
def verifyRealChecks (cfg : X402VerifierConfig) (now : Int)
    (sigVerify : JsVal → Except JsErr Bool) (proof auth : JsVal) (amount : Int)
    (recipient : String) (payer : JsVal) (rawVA rawVB : JsVal) :
    X402PaymentVerification :=
  if jsToLower recipient ≠ jsToLower cfg.recipientAddress then
    { valid := false, amount := amount, recipient := recipient, payer := payer,
      error := some (.recipientMismatch cfg.recipientAddress recipient) }
  else if amount < jsMathRound (cfg.requiredAmountUSDC * 1000000) then
    { valid := false, amount := amount, recipient := recipient, payer := payer,
      error := some (.insufficientAmount cfg.requiredAmountUSDC ((amount : ℚ) / 1000000)) }
  else
    let validAfter := jsParseInt (nullishD rawVA (.str "0"))
    let validBefore := jsParseInt (nullishD rawVB (.str "0"))
    if nanLt now validAfter then
      { valid := false, amount := amount, recipient := recipient, payer := payer,
        error := some (.notYetValid (validAfter.getD 0)) }
    else if nanGe now validBefore then
      { valid := false, amount := amount, recipient := recipient, payer := payer,
        error := some (.expired (validBefore.getD 0)) }
    else if cfg.simulationMode.getD false then
      { valid := true, amount := amount, recipient := recipient, payer := payer }
    else
      match strictSigCheck sigVerify auth proof with
      | .ok true => { valid := true, amount := amount, recipient := recipient, payer := payer }
      | .ok false =>
        { valid := false, amount := amount, recipient := recipient, payer := payer,
          error := some (.signatureInvalid) }
      | .error _ =>
        { valid := false, amount := amount, recipient := recipient, payer := payer,
          error := some (.eip712Error) }

/-- `verifyRealX402Proof`.  Field reads that provably cannot throw once
`auth.value` has been read (property reads on a non-nullish value) are
hoisted above the pure guard cascade; this preserves behaviour and the
source's throw order (`BigInt` before `.toLowerCase()`). -/
def verifyRealX402Proof (cfg : X402VerifierConfig) (now : Int)
    (sigVerify : JsVal → Except JsErr Bool) (proof : JsVal) :
    Except JsErr X402PaymentVerification := do
  let payload ← jsGet proof ("payload")
  let auth ← jsGet payload ("authorization")
  let rawValue ← jsGet auth ("value")
  let amount ← jsBigInt (nullishD rawValue (.str "0"))
  let rawTo ← jsGet auth ("to")
  let rawFrom ← jsGet auth ("from")
  let recipient ← asStr (nullishD rawTo (.str ""))
  let rawVA ← jsGet auth ("validAfter")
  let rawVB ← jsGet auth ("validBefore")
  pure (verifyRealChecks cfg now sigVerify proof auth amount recipient
    (nullishD rawFrom (.str "")) rawVA rawVB)

/-- The guard cascade of `verifyMockProof` after field coercion. -/
def verifyMockChecks (cfg : X402VerifierConfig) (amount : Int)
    (recipient payer : String) (txHash : Option String) : X402PaymentVerification :=
  if jsToLower recipient ≠ jsToLower cfg.recipientAddress then
    { valid := false, amount := amount, recipient := recipient, payer := .str payer,
      txHash := txHash, error := some (.recipientMismatch cfg.recipientAddress recipient) }
  else if amount < jsMathRound (cfg.requiredAmountUSDC * 1000000) then
    { valid := false, amount := amount, recipient := recipient, payer := .str payer,
      txHash := txHash,
      error := some (.insufficientAmount cfg.requiredAmountUSDC ((amount : ℚ) / 1000000)) }
  else
    { valid := true, amount := amount, recipient := recipient, payer := .str payer,
      txHash := txHash }

/-- `verifyMockProof`: `amount = BigInt(String(proof.amount ?? "0"))` (which
can throw `SyntaxError`), string-coerced `recipient`/`payer`, truthiness-
guarded `txHash`, then recipient and amount checks.  No time-window and no
signature step exists on this path. -/
def verifyMockProof (cfg : X402VerifierConfig) (proof : JsVal) :
    Except JsErr X402PaymentVerification := do
  let rawAmount ← jsGet proof ("amount")
  let amount ← strToBigInt (jsString (nullishD rawAmount (.str "0")))
  let rawRecipient ← jsGet proof ("recipient")
  let rawPayer ← jsGet proof ("payer")
  let rawTx ← jsGet proof ("txHash")
  pure (verifyMockChecks cfg amount (jsString (nullishD rawRecipient (.str "")))
    (jsString (nullishD rawPayer (.str "")))
    (if jsTruthy rawTx then some (jsString rawTx) else none))

/-- `X402Verifier.verify`: empty-proof shortcut, decode (with its two
failure messages wrapped), classification, then dispatch.  A `JsErr`
result models a rejected promise escaping `verify`. -/
def X402Verifier.verify (cfg : X402VerifierConfig) (now : Int)
    (sigVerify : JsVal → Except JsErr Bool) (pB64 pRaw : String → Option JsVal)
    (paymentProof : String) : Except JsErr X402PaymentVerification :=
  if paymentProof = "" then .ok (mkFailVerification .missingProof)
  else
    match decodePaymentProof pB64 pRaw paymentProof with
    | .error e => .ok (mkFailVerification (.decodeFailed e))
    | .ok decoded =>
      if isRealX402Proof decoded then verifyRealX402Proof cfg now sigVerify decoded
      else if isMockProof decoded then verifyMockProof cfg decoded
      else .ok (mkFailVerification .unrecognizedFormat)

-- ── payment-gateway.ts ──────────────────────────────────────────────────────

/-- The slice of `CREWorkflowDefinition` the gateway consumes
(`workflow?.priceUSDC`); the catalog itself lives in the registry
collaborator. -/
structure CREWorkflowDefinitionM where
  priceUSDC : ℚ

/-- `WorkflowRequest` from `types.ts` (the UUID and timestamp are
parameters of the embedding). -/
structure WorkflowRequest where
  requestId : String
  workflowName : String
  payload : JsVal
  paymentProof : String
  createdAt : String

/-- Workflow execution status from `types.ts`. -/
inductive WStatus where
  | success : WStatus
  | failed : WStatus
  | pending : WStatus
deriving DecidableEq

/-- `WorkflowResult` from `types.ts` (timing/settlement metadata omitted:
the gateway only forwards it). -/
structure WorkflowResult where
  requestId : String
  workflowName : String
  status : WStatus
  result : JsVal := .undefined
  error : Option String := none

/-- The registry collaborator: a catalog lookup and a stateful `execute`.
The state type `σ` makes handler invocations observable (e.g. a counter
that increments only when a handler actually runs). -/
structure CREWorkflowRegistryM (σ : Type) where
  getWorkflow : String → Option CREWorkflowDefinitionM
  execute : WorkflowRequest → σ → WorkflowResult × σ

/-- `PaymentGatewayConfig`. -/
structure PaymentGatewayConfig where
  recipientAddress : String
  defaultPriceUSDC : Option ℚ := none
  simulationMode : Option Bool := none

/-- The constructor's defaulting spread
`{ defaultPriceUSDC: 0.001, simulationMode: true, ...config }`. -/
def mkGatewayConfig (c : PaymentGatewayConfig) : PaymentGatewayConfig :=
  { recipientAddress := c.recipientAddress,
    defaultPriceUSDC := some (c.defaultPriceUSDC.getD (0.001 : ℚ)),
    simulationMode := some (c.simulationMode.getD true) }

/-- `GatewayInvokeResult`. -/
structure GatewayInvokeResult where
  allowed : Bool
  payment : X402PaymentVerification
  workflowResult : Option WorkflowResult := none
  pricePaid : Option ℚ := none
  error : Option VerifyError := none

/-- `workflow?.priceUSDC ?? config.defaultPriceUSDC ?? 0.001`. -/
def gatewayRequiredPrice (cfg : PaymentGatewayConfig) {σ : Type}
    (reg : CREWorkflowRegistryM σ) (workflowName : String) : ℚ :=
  match reg.getWorkflow workflowName with
  | some w => w.priceUSDC
  | none => cfg.defaultPriceUSDC.getD (0.001 : ℚ)

/-- The verifier configuration `invoke` builds for a given workflow. -/
def gatewayVerifierConfig (cfg : PaymentGatewayConfig) {σ : Type}
    (reg : CREWorkflowRegistryM σ) (workflowName : String) : X402VerifierConfig :=
  { recipientAddress := cfg.recipientAddress,
    requiredAmountUSDC := gatewayRequiredPrice cfg reg workflowName,
    simulationMode := cfg.simulationMode }

/-- `X402CREPaymentGateway.invoke`: price lookup, payment verification,
then — only on a valid payment — registry execution.  The pair's second
component is the registry state, which changes only when `execute` runs. -/
def X402CREPaymentGateway.invoke (cfg : PaymentGatewayConfig) {σ : Type}
    (reg : CREWorkflowRegistryM σ) (now : Int)
    (sigVerify : JsVal → Except JsErr Bool) (pB64 pRaw : String → Option JsVal)
    (requestId createdAt : String) (workflowName : String) (payload : JsVal)
    (paymentProof : String) (s : σ) : Except JsErr GatewayInvokeResult × σ :=
  let requiredPrice := gatewayRequiredPrice cfg reg workflowName
  match X402Verifier.verify (gatewayVerifierConfig cfg reg workflowName) now
      sigVerify pB64 pRaw paymentProof with
  | .error e => (.error e, s)
  | .ok payment =>
    if !payment.valid then
      (.ok { allowed := false, payment := payment,
             error := some (payment.error.getD .genericFailure) }, s)
    else
      let request : WorkflowRequest :=
        { requestId := requestId, workflowName := workflowName, payload := payload,
          paymentProof := paymentProof, createdAt := createdAt }
      let res := reg.execute request s
      (.ok { allowed := true, payment := payment, workflowResult := some res.1,
             pricePaid := some requiredPrice }, res.2)

/-- An error escaping a gateway method: either a JS exception from
verification or the `new Error(...)` thrown on denial. -/
inductive GatewayError where
  | js : JsErr → GatewayError
  | denied : VerifyError → GatewayError

/-- `AgentTaskRequest` from `types.ts`. -/
structure AgentTaskRequest where
  task : String
  params : Option JsVal := none
  maxBudgetUSDC : Option ℚ := none

/-- `AgentOrchestrationResult` from `types.ts`. -/
structure AgentOrchestrationResult where
  taskId : String
  task : String
  workflowsInvoked : List String
  totalSpentUSDC : ℚ
  result : JsVal
  paymentGated : Bool

/-- The keyword router at the top of `orchestrateAgentTask`. -/
def routeTask (task : String) : String :=
  let t := jsToLower task
  if jsIncludes t ("price") || jsIncludes t ("token") then "price-feed"
  else if jsIncludes t ("weather") then "weather-oracle"
  else if jsIncludes t ("compute") || jsIncludes t ("calculate") then "compute-task"
  else "agent-task-dispatch"

/-- `X402CREPaymentGateway.orchestrateAgentTask`: route, invoke, and either
assemble the task result or throw the gateway's denial error. -/
def X402CREPaymentGateway.orchestrateAgentTask (cfg : PaymentGatewayConfig)
    {σ : Type} (reg : CREWorkflowRegistryM σ) (now : Int)
    (sigVerify : JsVal → Except JsErr Bool) (pB64 pRaw : String → Option JsVal)
    (taskId requestId createdAt : String) (task : AgentTaskRequest)
    (paymentProof : String) (s : σ) : Except GatewayError AgentOrchestrationResult × σ :=
  let workflowName := routeTask task.task
  let payload := task.params.getD (.obj [("task", .str task.task)])
  match X402CREPaymentGateway.invoke cfg reg now sigVerify pB64 pRaw requestId
      createdAt workflowName payload paymentProof s with
  | (.error e, s') => (.error (.js e), s')
  | (.ok r, s') =>
    if r.allowed && r.workflowResult.isSome then
      (.ok { taskId := taskId, task := task.task,
             workflowsInvoked := [workflowName],
             totalSpentUSDC := r.pricePaid.getD 0,
             result := (r.workflowResult.map WorkflowResult.result).getD .undefined,
             paymentGated := true }, s')
    else
      (.error (.denied (r.error.getD .gatewayDenied)), s')

-- ── agent-client.ts : batchInvoke ───────────────────────────────────────────

/-- `AgentInvokeResult.meta`. -/
structure AgentInvokeMeta where
  requestId : Option String := none
  workflowName : Option String := none
  pricePaid : Option ℚ := none
  paymentTx : Option String := none

/-- `AgentInvokeResult` (client-side outcome of one gated invocation). -/
structure AgentInvokeResult where
  success : Bool
  result : JsVal := .undefined
  meta : Option AgentInvokeMeta := none
  error : Option String := none
  paymentUsed : Option String := none

/-- `BatchRequest`. -/
structure BatchRequest where
  workflowName : String
  payload : JsVal

/-- Per-item batch status. -/
inductive BatchStatus where
  | success : BatchStatus
  | failed : BatchStatus
deriving DecidableEq

/-- `BatchItemResult`. -/
structure BatchItemResult where
  workflowName : String
  index : Nat
  status : BatchStatus
  result : Option AgentInvokeResult := none
  error : Option String := none

/-- `BatchResult` (`totalExecutionMs` omitted: wall-clock time is not
modelled). -/
structure BatchResult where
  totalRequested : Nat
  succeeded : Nat
  failed : Nat
  results : List BatchItemResult

/-- A `Promise.allSettled` outcome for one item: the fulfilled invoke
result, or the rejection reason's `.message` (absent when the reason has
none). -/
inductive Settled where
  | fulfilled : AgentInvokeResult → Settled
  | rejected : Option String → Settled

/-- The per-item classifier inside `batchInvoke`'s `settled.map`. -/
def classifyBatchItem (workflowName : String) (index : Nat) : Settled → BatchItemResult
  | .fulfilled ir =>
    if ir.success then
      { workflowName := workflowName, index := index, status := .success, result := some ir }
    else
      { workflowName := workflowName, index := index, status := .failed, result := some ir,
        error := some (ir.error.getD ("Workflow returned failure")) }
  | .rejected reason =>
    { workflowName := workflowName, index := index, status := .failed,
      error := some (reason.getD ("Unknown error")) }

/-- Index-ordered collection of the settled outcomes (`settle i r` is the
outcome of the concurrent `invoke` for item `i`; `Promise.allSettled`
returns outcomes in input order regardless of completion order). -/
def batchItems (settle : Nat → BatchRequest → Settled) :
    Nat → List BatchRequest → List BatchItemResult
  | _, [] => []
  | i, r :: rs => classifyBatchItem r.workflowName i (settle i r) :: batchItems settle (i + 1) rs

/-- `AgentClient.batchInvoke`. -/
def AgentClient.batchInvoke (settle : Nat → BatchRequest → Settled)
    (batch : List BatchRequest) : BatchResult :=
  let results := batchItems settle 0 batch
  let succeeded := (results.filter (fun r => r.status = BatchStatus.success)).length
  { totalRequested := batch.length, succeeded := succeeded,
    failed := batch.length - succeeded, results := results }

-- ── workflow-orchestrator.ts ────────────────────────────────────────────────

/-- Per-step status. -/
inductive StepStatus where
  | success : StepStatus
  | failed : StepStatus
  | skipped : StepStatus
deriving DecidableEq

/-- `OrchestrationStep`. -/
structure OrchStepSpec where
  workflowName : String
  payload : Option JsVal := none

/-- An element of a `WorkflowChain` (`string | OrchestrationStep`). -/
inductive ChainItem where
  | name : String → ChainItem
  | step : OrchStepSpec → ChainItem

/-- `normalizeChain`. -/
def normalizeChain (chain : List ChainItem) : List OrchStepSpec :=
  chain.map (fun it =>
    match it with
    | .name s => { workflowName := s }
    | .step st => st)

/-- `defaultTransformer`: spread a record result and add `previousResult`,
otherwise wrap under `previousResult`. -/
def defaultTransformer (stepResult : JsVal) (_nextWorkflow : String)
    (_stepIndex : Nat) : Except String JsVal :=
  match stepResult with
  | .obj fs => .ok (.obj (fs ++ [("previousResult", .obj fs)]))
  | v => .ok (.obj [("previousResult", v)])

/-- `OrchestrationConfig` (a transformer returning `.error` models a
transform function that throws). -/
structure OrchestrationConfig where
  continueOnFailure : Option Bool := none
  initialPayload : Option JsVal := none
  payloadTransformer : Option (JsVal → String → Nat → Except String JsVal) := none

/-- `StepResult` (`executionMs` omitted: wall-clock time is not modelled). -/
structure StepResult where
  workflowName : String
  stepIndex : Nat
  status : StepStatus
  result : Option JsVal := none
  error : Option String := none
  paymentProof : Option String := none
  spentUSDC : Option ℚ := none

/-- The `AgentClient` collaborator: a stateful `invoke` whose `.error`
outcome models a thrown/rejected network-level fault. -/
structure AgentClientModel (σ : Type) where
  invoke : String → JsVal → σ → Except String AgentInvokeResult × σ

/-- The loop state of `orchestrate` minus the results array (the results
array is append-only: each iteration pushes exactly one entry, and the
transformer-fault correction rewrites only the entry pushed in the same
iteration, so the loop is a fold producing one `StepResult` per step). -/
structure OrchCore (σ : Type) where
  currentPayload : JsVal
  totalSpentUSDC : ℚ
  lastSuccessResult : JsVal
  hasFailure : Bool
  clientState : σ

/-- One iteration of `orchestrate`'s loop: skip propagation, invocation
with fault capture, spend accounting, and payload chaining with the
retroactive failure correction when the transformer faults. -/
def orchStep {σ : Type} (client : AgentClientModel σ) (cof : Bool)
    (tr : JsVal → String → Nat → Except String JsVal) (step : OrchStepSpec)
    (nextName? : Option String) (i : Nat) (c : OrchCore σ) : StepResult × OrchCore σ :=
  if c.hasFailure && !cof then
    ({ workflowName := step.workflowName, stepIndex := i, status := .skipped }, c)
  else
    match client.invoke step.workflowName (step.payload.getD c.currentPayload) c.clientState with
    | (.error msg, s') =>
      ({ workflowName := step.workflowName, stepIndex := i, status := .failed,
         error := some msg },
       { c with hasFailure := true, clientState := s' })
    | (.ok ir, s') =>
      if !ir.success then
        ({ workflowName := step.workflowName, stepIndex := i, status := .failed,
           error := some (ir.error.getD ("Workflow invocation failed")),
           paymentProof := ir.paymentUsed },
         { c with hasFailure := true, clientState := s' })
      else
        match nextName? with
        | none =>
          ({ workflowName := step.workflowName, stepIndex := i, status := .success,
             result := some ir.result, paymentProof := ir.paymentUsed,
             spentUSDC := some ((ir.meta.bind AgentInvokeMeta.pricePaid).getD 0) },
           { c with clientState := s',
                    totalSpentUSDC := c.totalSpentUSDC + (ir.meta.bind AgentInvokeMeta.pricePaid).getD 0,
                    lastSuccessResult := ir.result })
        | some nextName =>
          match tr ir.result nextName i with
          | .ok p =>
            ({ workflowName := step.workflowName, stepIndex := i, status := .success,
               result := some ir.result, paymentProof := ir.paymentUsed,
               spentUSDC := some ((ir.meta.bind AgentInvokeMeta.pricePaid).getD 0) },
             { c with clientState := s',
                      totalSpentUSDC := c.totalSpentUSDC + (ir.meta.bind AgentInvokeMeta.pricePaid).getD 0,
                      lastSuccessResult := ir.result, currentPayload := p })
          | .error m =>
            -- retroactive correction: the entry keeps the success fields
            -- (result, paymentProof, spentUSDC) but is recorded `failed`
            ({ workflowName := step.workflowName, stepIndex := i, status := .failed,
               result := some ir.result,
               error := some ("Payload transformer error: " ++ m),
               paymentProof := ir.paymentUsed,
               spentUSDC := some ((ir.meta.bind AgentInvokeMeta.pricePaid).getD 0) },
             { c with clientState := s',
                      totalSpentUSDC := c.totalSpentUSDC + (ir.meta.bind AgentInvokeMeta.pricePaid).getD 0,
                      lastSuccessResult := ir.result, hasFailure := true })

/-- The loop of `orchestrate` over the remaining steps. -/
def orchLoop {σ : Type} (client : AgentClientModel σ) (cof : Bool)
    (tr : JsVal → String → Nat → Except String JsVal) :
    List OrchStepSpec → Nat → OrchCore σ → List StepResult × OrchCore σ
  | [], _, c => ([], c)
  | step :: rest, i, c =>
    let ec := orchStep client cof tr step (rest.head?.map OrchStepSpec.workflowName) i c
    let lc := orchLoop client cof tr rest (i + 1) ec.2
    (ec.1 :: lc.1, lc.2)

/-- Overall orchestration status (`partialRun` models the source's
`"partial"`). -/
inductive OrchStatus where
  | completed : OrchStatus
  | partialRun : OrchStatus
  | failed : OrchStatus
deriving DecidableEq

/-- `OrchestrationResult` (timestamps are parameters). -/
structure OrchestrationResult where
  orchestrationId : String
  workflowChain : List String
  steps : List StepResult
  finalResult : JsVal
  totalSpentUSDC : ℚ
  stepsCompleted : Nat
  status : OrchStatus
  startedAt : String
  completedAt : String

/-- `WorkflowOrchestrator.orchestrate`. -/
def WorkflowOrchestrator.orchestrate {σ : Type} (client : AgentClientModel σ)
    (chain : List ChainItem) (config : OrchestrationConfig)
    (orchestrationId startedAt completedAt : String) (s0 : σ) :
    OrchestrationResult × σ :=
  let steps := normalizeChain chain
  let cof := config.continueOnFailure.getD false
  let tr := config.payloadTransformer.getD defaultTransformer
  let c0 : OrchCore σ :=
    { currentPayload := config.initialPayload.getD (.obj []),
      totalSpentUSDC := 0, lastSuccessResult := .undefined, hasFailure := false,
      clientState := s0 }
  let lc := orchLoop client cof tr steps 0 c0
  let stepResults := lc.1
  let successCount := (stepResults.filter (fun s => s.status = StepStatus.success)).length
  let failedCount := (stepResults.filter (fun s => s.status = StepStatus.failed)).length
  let status : OrchStatus :=
    if failedCount = 0 then .completed
    else if cof ∧ 0 < successCount then .partialRun
    else .failed
  ({ orchestrationId := orchestrationId,
     workflowChain := steps.map OrchStepSpec.workflowName,
     steps := stepResults,
     finalResult := lc.2.lastSuccessResult,
     totalSpentUSDC := lc.2.totalSpentUSDC,
     stepsCompleted := (stepResults.filter (fun s => s.status ≠ StepStatus.skipped)).length,
     status := status,
     startedAt := startedAt, completedAt := completedAt }, lc.2.clientState)

-- ── Lemmas: batchInvoke ─────────────────────────────────────────────────────

theorem batchItems_length (settle : Nat → BatchRequest → Settled) (i0 : Nat)
    (batch : List BatchRequest) :
    (batchItems settle i0 batch).length = batch.length := by
  induction batch generalizing i0 with
  | nil => rfl
  | cons r rs ih => simp [batchItems, ih]

theorem batchItems_get? (settle : Nat → BatchRequest → Settled) (i0 : Nat)
    (batch : List BatchRequest) (k : Nat) :
    (batchItems settle i0 batch).get? k =
      (batch.get? k).map (fun q => classifyBatchItem q.workflowName (i0 + k) (settle (i0 + k) q)) := by
  induction batch generalizing i0 k with
  | nil => simp [batchItems]
  | cons r rs ih =>
    cases k with
    | zero => simp [batchItems]
    | succ k =>
      simp only [batchItems, List.get?_cons_succ, ih (i0 + 1) k]
      have : i0 + 1 + k = i0 + (k + 1) := by omega
      rw [this]

theorem classifyBatchItem_name_index (wn : String) (i : Nat) (o : Settled) :
    (classifyBatchItem wn i o).workflowName = wn ∧ (classifyBatchItem wn i o).index = i := by
  cases o with
  | fulfilled ir =>
    by_cases h : ir.success = true <;> simp [classifyBatchItem, h]
  | rejected m => simp [classifyBatchItem]

theorem classifyBatchItem_status (wn : String) (i : Nat) (o : Settled) :
    (classifyBatchItem wn i o).status = BatchStatus.success ∨
      (classifyBatchItem wn i o).status = BatchStatus.failed := by
  cases o with
  | fulfilled ir =>
    by_cases h : ir.success = true <;> simp [classifyBatchItem, h]
  | rejected m => simp [classifyBatchItem]

/-- C7: `batchInvoke` returns one entry per input in input order (entry `i`
carries request `i`'s workflow name and index `i`), `succeeded + failed =
totalRequested`, and a rejected invoke promise becomes a `failed` item
carrying the fault's message instead of aborting the batch. -/
theorem batchInvoke_spec (settle : Nat → BatchRequest → Settled)
    (batch : List BatchRequest) :
    (AgentClient.batchInvoke settle batch).results.length = batch.length ∧
    (AgentClient.batchInvoke settle batch).totalRequested = batch.length ∧
    (AgentClient.batchInvoke settle batch).succeeded
        + (AgentClient.batchInvoke settle batch).failed
      = (AgentClient.batchInvoke settle batch).totalRequested ∧
    (∀ k q, batch.get? k = some q →
      (AgentClient.batchInvoke settle batch).results.get? k =
        some (classifyBatchItem q.workflowName k (settle k q))) ∧
    (∀ k q r, batch.get? k = some q →
      (AgentClient.batchInvoke settle batch).results.get? k = some r →
      r.workflowName = q.workflowName ∧ r.index = k) ∧
    (∀ k q msg, batch.get? k = some q → settle k q = Settled.rejected msg →
      (AgentClient.batchInvoke settle batch).results.get? k =
        some { workflowName := q.workflowName, index := k, status := BatchStatus.failed,
               result := none, error := some (msg.getD ("Unknown error")) }) := by
  have hlen : (AgentClient.batchInvoke settle batch).results.length = batch.length :=
    batchItems_length settle 0 batch
  have hget : ∀ k, (AgentClient.batchInvoke settle batch).results.get? k =
      (batch.get? k).map (fun q => classifyBatchItem q.workflowName k (settle k q)) := by
    intro k
    have := batchItems_get? settle 0 batch k
    simpa [AgentClient.batchInvoke] using this
  refine ⟨hlen, rfl, ?_, ?_, ?_, ?_⟩
  · have hle : (AgentClient.batchInvoke settle batch).succeeded ≤ batch.length := by
      calc (AgentClient.batchInvoke settle batch).succeeded
          ≤ (batchItems settle 0 batch).length := List.length_filter_le _ _
        _ = batch.length := batchItems_length settle 0 batch
    show (AgentClient.batchInvoke settle batch).succeeded
        + (batch.length - (AgentClient.batchInvoke settle batch).succeeded) = batch.length
    omega
  · intro k q hq
    rw [hget k, hq]
    rfl
  · intro k q r hq hr
    rw [hget k, hq] at hr
    have heq : classifyBatchItem q.workflowName k (settle k q) = r := Option.some.inj hr
    rw [← heq]
    exact classifyBatchItem_name_index q.workflowName k (settle k q)
  · intro k q msg hq hs
    rw [hget k, hq]
    show some (classifyBatchItem q.workflowName k (settle k q)) = _
    rw [hs]
    rfl

/-- Witness for C7 at a concrete batch of three well-formed requests plus
one rejected item. -/
theorem batchInvoke_spec_witness :
    ((AgentClient.batchInvoke
        (fun i _ => if i = 3 then Settled.rejected (some ("boom"))
                    else Settled.fulfilled { success := true })
        [{ workflowName := "price-feed", payload := .obj [] },
         { workflowName := "price-feed", payload := .obj [] },
         { workflowName := "weather-oracle", payload := .obj [] },
         { workflowName := "compute-task", payload := .obj [] }]).results.get? 2 =
      some (classifyBatchItem ("weather-oracle") 2
        (Settled.fulfilled { success := true }))) ∧
    ((AgentClient.batchInvoke
        (fun i _ => if i = 3 then Settled.rejected (some ("boom"))
                    else Settled.fulfilled { success := true })
        [{ workflowName := "price-feed", payload := .obj [] },
         { workflowName := "price-feed", payload := .obj [] },
         { workflowName := "weather-oracle", payload := .obj [] },
         { workflowName := "compute-task", payload := .obj [] }]).results.get? 3 =
      some { workflowName := "compute-task", index := 3, status := BatchStatus.failed,
             result := none, error := some ("boom") }) := by
  constructor
  · have h := (batchInvoke_spec
      (fun i _ => if i = 3 then Settled.rejected (some ("boom"))
                  else Settled.fulfilled { success := true })
      [{ workflowName := "price-feed", payload := .obj [] },
       { workflowName := "price-feed", payload := .obj [] },
       { workflowName := "weather-oracle", payload := .obj [] },
       { workflowName := "compute-task", payload := .obj [] }]).2.2.2.1
    exact h 2 { workflowName := "weather-oracle", payload := .obj [] } rfl
  · have h := (batchInvoke_spec
      (fun i _ => if i = 3 then Settled.rejected (some ("boom"))
                  else Settled.fulfilled { success := true })
      [{ workflowName := "price-feed", payload := .obj [] },
       { workflowName := "price-feed", payload := .obj [] },
       { workflowName := "weather-oracle", payload := .obj [] },
       { workflowName := "compute-task", payload := .obj [] }]).2.2.2.2.2
    exact h 3 { workflowName := "compute-task", payload := .obj [] } (some ("boom")) rfl rfl

-- ── Lemmas: verifier evaluation on well-formed proofs ───────────────────────

theorem isMockProof_mockProofVal (payer recipient tx sig : String) (m ts : Int) :
    isMockProof (mockProofVal payer recipient tx sig m ts) = true := rfl

theorem isRealX402Proof_mockProofVal (payer recipient tx sig : String) (m ts : Int) :
    isRealX402Proof (mockProofVal payer recipient tx sig m ts) = false := rfl

theorem isRealX402Proof_realProofVal (network signature : String) (auth : JsVal) :
    isRealX402Proof (realProofVal network signature auth) = true := rfl

/-- Evaluation of `verifyMockProof` on a well-formed mock proof value. -/
theorem verifyMockProof_mockProofVal (cfg : X402VerifierConfig)
    (payer recipient tx sig : String) (m ts : Int) :
    verifyMockProof cfg (mockProofVal payer recipient tx sig m ts) =
      .ok (verifyMockChecks cfg m recipient payer
        (if jsTruthy (.str tx) then some tx else none)) := by
  have h1 : verifyMockProof cfg (mockProofVal payer recipient tx sig m ts) =
      Except.bind (strToBigInt (intToDecimal m)) (fun amount =>
        pure (verifyMockChecks cfg amount recipient payer
          (if jsTruthy (.str tx) then some tx else none))) := rfl
  rw [h1, strToBigInt_intToDecimal]
  rfl

/-- Evaluation of `verifyRealX402Proof` on a well-formed delegated proof
value. -/
theorem verifyRealX402Proof_realProofVal (cfg : X402VerifierConfig) (now : Int)
    (sigVerify : JsVal → Except JsErr Bool) (fromA toA network signature nonce : String)
    (m va vb : Int) :
    verifyRealX402Proof cfg now sigVerify
        (realProofVal network signature (delegatedAuthVal fromA toA m va vb nonce)) =
      .ok (verifyRealChecks cfg now sigVerify
        (realProofVal network signature (delegatedAuthVal fromA toA m va vb nonce))
        (delegatedAuthVal fromA toA m va vb nonce) m toA (.str fromA)
        (.str (intToDecimal va)) (.str (intToDecimal vb))) := by
  have h1 : verifyRealX402Proof cfg now sigVerify
        (realProofVal network signature (delegatedAuthVal fromA toA m va vb nonce)) =
      Except.bind (strToBigInt (intToDecimal m)) (fun amount =>
        pure (verifyRealChecks cfg now sigVerify
          (realProofVal network signature (delegatedAuthVal fromA toA m va vb nonce))
          (delegatedAuthVal fromA toA m va vb nonce) amount toA (.str fromA)
          (.str (intToDecimal va)) (.str (intToDecimal vb)))) := rfl
  rw [h1, strToBigInt_intToDecimal]
  rfl

/-- `verify` reduces to `verifyMockProof` when the wire decodes to a
well-formed mock value. -/
theorem verify_mock_wire (cfg : X402VerifierConfig) (now : Int)
    (sigVerify : JsVal → Except JsErr Bool) (pB64 pRaw : String → Option JsVal)
    (wire payer recipient tx sig : String) (m ts : Int) (hw : wire ≠ "")
    (hdec : pB64 wire = some (mockProofVal payer recipient tx sig m ts)) :
    X402Verifier.verify cfg now sigVerify pB64 pRaw wire =
      verifyMockProof cfg (mockProofVal payer recipient tx sig m ts) := by
  unfold X402Verifier.verify
  rw [if_neg hw]
  unfold decodePaymentProof
  rw [hdec]
  rfl

/-- `verify` reduces to `verifyRealX402Proof` when the wire decodes to a
well-formed delegated value. -/
theorem verify_real_wire (cfg : X402VerifierConfig) (now : Int)
    (sigVerify : JsVal → Except JsErr Bool) (pB64 pRaw : String → Option JsVal)
    (wire fromA toA network signature nonce : String) (m va vb : Int) (hw : wire ≠ "")
    (hdec : pB64 wire = some (realProofVal network signature
      (delegatedAuthVal fromA toA m va vb nonce))) :
    X402Verifier.verify cfg now sigVerify pB64 pRaw wire =
      verifyRealX402Proof cfg now sigVerify
        (realProofVal network signature (delegatedAuthVal fromA toA m va vb nonce)) := by
  unfold X402Verifier.verify
  rw [if_neg hw]
  unfold decodePaymentProof
  rw [hdec]
  rfl

theorem parseIntChars_neg_digits (ds : List Char) (hne : ds ≠ [])
    (hall : ds.all Char.isDigit = true) :
    parseIntChars ('-' :: ds) = some (-(decDigitsToNat ds : Int)) := by
  have hdrop : ('-' :: ds).dropWhile isWs = '-' :: ds := by
    rw [List.dropWhile_cons_of_neg]
    decide
  have htake : ds.takeWhile Char.isDigit = ds := by
    rw [List.takeWhile_eq_self_iff]
    intro c hc
    rw [List.all_eq_true] at hall
    exact hall c hc
  unfold parseIntChars
  rw [hdrop]
  simp only [htake]
  simp [hne]

/-- `parseInt` recovers any integer from its decimal rendering. -/
theorem jsParseInt_intToDecimal (m : Int) : jsParseInt (.str (intToDecimal m)) = some m := by
  show parseIntChars (intToDecimal m).data = some m
  unfold intToDecimal
  split
  · rename_i hneg
    show parseIntChars ('-' :: natDigits m.natAbs) = _
    rw [parseIntChars_neg_digits _ (natDigits_ne_nil _) (natDigits_all_digit _)]
    rw [decDigitsToNat_natDigits]
    congr 1
    omega
  · rename_i hpos
    show parseIntChars (natDigits m.natAbs) = _
    rw [parseIntChars_digits _ (natDigits_ne_nil _) (natDigits_all_digit _)]
    rw [decDigitsToNat_natDigits]
    congr 1
    omega

-- ── Lemmas: the guard cascades under explicit hypotheses ────────────────────

theorem verifyMockChecks_pass (cfg : X402VerifierConfig) (m : Int)
    (recipient payer : String) (txHash : Option String)
    (hrec : jsToLower recipient = jsToLower cfg.recipientAddress)
    (hm : jsMathRound (cfg.requiredAmountUSDC * 1000000) ≤ m) :
    verifyMockChecks cfg m recipient payer txHash =
      { valid := true, amount := m, recipient := recipient, payer := .str payer,
        txHash := txHash, error := none } := by
  unfold verifyMockChecks
  rw [if_neg (by simp [hrec]), if_neg (by omega)]

theorem verifyMockChecks_insufficient (cfg : X402VerifierConfig) (m : Int)
    (recipient payer : String) (txHash : Option String)
    (hrec : jsToLower recipient = jsToLower cfg.recipientAddress)
    (hm : m < jsMathRound (cfg.requiredAmountUSDC * 1000000)) :
    verifyMockChecks cfg m recipient payer txHash =
      { valid := false, amount := m, recipient := recipient, payer := .str payer,
        txHash := txHash,
        error := some (.insufficientAmount cfg.requiredAmountUSDC ((m : ℚ) / 1000000)) } := by
  unfold verifyMockChecks
  rw [if_neg (by simp [hrec]), if_pos hm]

theorem verifyRealChecks_insufficient (cfg : X402VerifierConfig) (now : Int)
    (sigVerify : JsVal → Except JsErr Bool) (proof auth : JsVal) (m : Int)
    (toA : String) (payerV : JsVal) (rawVA rawVB : JsVal)
    (hrec : jsToLower toA = jsToLower cfg.recipientAddress)
    (hm : m < jsMathRound (cfg.requiredAmountUSDC * 1000000)) :
    verifyRealChecks cfg now sigVerify proof auth m toA payerV rawVA rawVB =
      { valid := false, amount := m, recipient := toA, payer := payerV,
        error := some (.insufficientAmount cfg.requiredAmountUSDC ((m : ℚ) / 1000000)) } := by
  unfold verifyRealChecks
  rw [if_neg (by simp [hrec]), if_pos hm]

theorem verifyRealChecks_notYetValid (cfg : X402VerifierConfig) (now : Int)
    (sigVerify : JsVal → Except JsErr Bool) (proof auth : JsVal) (m va vb : Int)
    (toA : String) (payerV : JsVal)
    (hrec : jsToLower toA = jsToLower cfg.recipientAddress)
    (hm : jsMathRound (cfg.requiredAmountUSDC * 1000000) ≤ m)
    (hnv : now < va) :
    verifyRealChecks cfg now sigVerify proof auth m toA payerV
        (.str (intToDecimal va)) (.str (intToDecimal vb)) =
      { valid := false, amount := m, recipient := toA, payer := payerV,
        error := some (.notYetValid va) } := by
  unfold verifyRealChecks
  rw [if_neg (by simp [hrec]), if_neg (by omega)]
  simp only [nullishD, jsParseInt_intToDecimal]
  rw [if_pos (by simp [nanLt, hnv])]
  rfl

theorem verifyRealChecks_expired (cfg : X402VerifierConfig) (now : Int)
    (sigVerify : JsVal → Except JsErr Bool) (proof auth : JsVal) (m va vb : Int)
    (toA : String) (payerV : JsVal)
    (hrec : jsToLower toA = jsToLower cfg.recipientAddress)
    (hm : jsMathRound (cfg.requiredAmountUSDC * 1000000) ≤ m)
    (hva : va ≤ now) (hvb : vb ≤ now) :
    verifyRealChecks cfg now sigVerify proof auth m toA payerV
        (.str (intToDecimal va)) (.str (intToDecimal vb)) =
      { valid := false, amount := m, recipient := toA, payer := payerV,
        error := some (.expired vb) } := by
  unfold verifyRealChecks
  rw [if_neg (by simp [hrec]), if_neg (by omega)]
  simp only [nullishD, jsParseInt_intToDecimal]
  rw [if_neg (by simp [nanLt]; omega), if_pos (by simp [nanGe, hvb])]
  rfl

theorem verifyRealChecks_window_pass_sim (cfg : X402VerifierConfig) (now : Int)
    (sigVerify : JsVal → Except JsErr Bool) (proof auth : JsVal) (m va vb : Int)
    (toA : String) (payerV : JsVal)
    (hrec : jsToLower toA = jsToLower cfg.recipientAddress)
    (hm : jsMathRound (cfg.requiredAmountUSDC * 1000000) ≤ m)
    (hva : va ≤ now) (hvb : now < vb)
    (hsim : cfg.simulationMode.getD false = true) :
    verifyRealChecks cfg now sigVerify proof auth m toA payerV
        (.str (intToDecimal va)) (.str (intToDecimal vb)) =
      { valid := true, amount := m, recipient := toA, payer := payerV,
        txHash := none, error := none } := by
  unfold verifyRealChecks
  rw [if_neg (by simp [hrec]), if_neg (by omega)]
  simp only [nullishD, jsParseInt_intToDecimal]
  rw [if_neg (by simp [nanLt]; omega), if_neg (by simp [nanGe]; omega), if_pos hsim]

/-- After the window passes, whatever the mode and the signature oracle do,
the result is returned (never thrown) and its error is never an
amount/window-class error. -/
theorem verifyRealChecks_window_pass_error_class (cfg : X402VerifierConfig) (now : Int)
    (sigVerify : JsVal → Except JsErr Bool) (proof auth : JsVal) (m va vb : Int)
    (toA : String) (payerV : JsVal)
    (hrec : jsToLower toA = jsToLower cfg.recipientAddress)
    (hm : jsMathRound (cfg.requiredAmountUSDC * 1000000) ≤ m)
    (hva : va ≤ now) (hvb : now < vb) :
    (verifyRealChecks cfg now sigVerify proof auth m toA payerV
        (.str (intToDecimal va)) (.str (intToDecimal vb))).error = none ∨
    (verifyRealChecks cfg now sigVerify proof auth m toA payerV
        (.str (intToDecimal va)) (.str (intToDecimal vb))).error = some .signatureInvalid ∨
    (verifyRealChecks cfg now sigVerify proof auth m toA payerV
        (.str (intToDecimal va)) (.str (intToDecimal vb))).error = some .eip712Error := by
  unfold verifyRealChecks
  rw [if_neg (by simp [hrec]), if_neg (by omega)]
  simp only [nullishD, jsParseInt_intToDecimal]
  rw [if_neg (by simp [nanLt]; omega), if_neg (by simp [nanGe]; omega)]
  by_cases hsim : cfg.simulationMode.getD false = true
  · rw [if_pos hsim]
    left
    rfl
  · rw [if_neg hsim]
    match strictSigCheck sigVerify auth proof with
    | .ok true => left; rfl
    | .ok false => right; left; rfl
    | .error e => right; right; rfl

theorem verifyRealChecks_sufficient_never_insufficient (cfg : X402VerifierConfig)
    (now : Int) (sigVerify : JsVal → Except JsErr Bool) (proof auth : JsVal) (m : Int)
    (toA : String) (payerV : JsVal) (rawVA rawVB : JsVal)
    (hrec : jsToLower toA = jsToLower cfg.recipientAddress)
    (hm : jsMathRound (cfg.requiredAmountUSDC * 1000000) ≤ m) :
    ∀ q g, (verifyRealChecks cfg now sigVerify proof auth m toA payerV rawVA rawVB).error ≠
      some (.insufficientAmount q g) := by
  unfold verifyRealChecks
  rw [if_neg (by simp [hrec]), if_neg (by omega)]
  intro q g
  by_cases h1 : nanLt now (jsParseInt (nullishD rawVA (JsVal.str "0"))) = true
  · simp [h1]
  · by_cases h2 : nanGe now (jsParseInt (nullishD rawVB (JsVal.str "0"))) = true
    · simp [h1, h2]
    · by_cases h3 : cfg.simulationMode.getD false = true
      · simp [h1, h2, h3]
      · simp only [h1, h2, h3]
        rw [if_neg (by decide), if_neg (by decide), if_neg (by decide)]
        split <;> simp

-- ── Shared concrete instances for witnesses and counterexamples ─────────────

/-- A trivially-accepting signature oracle. -/
def sigW : JsVal → Except JsErr Bool := fun _ => .ok true

/-- A parser that fails on every input. -/
def pNone : String → Option JsVal := fun _ => none

/-- A simulation-mode verifier config: recipient `0xr`, price $0.001. -/
def cfgW : X402VerifierConfig :=
  { recipientAddress := "0xr", requiredAmountUSDC := 1/1000, simulationMode := some true }

/-- A strict-mode verifier config: recipient `0xr`, price $0.001. -/
def cfgStrict : X402VerifierConfig :=
  { recipientAddress := "0xr", requiredAmountUSDC := 1/1000, simulationMode := some false }

/-- A parser mapping the wire `W` to a well-formed mock proof paying 1000
micro-USDC to `0xr`. -/
def pMockW : String → Option JsVal :=
  fun s => if s = "W" then some (mockProofVal ("0xp") ("0xr") ("0xt") ("0xs") 1000 0) else none

-- ── C4 ──────────────────────────────────────────────────────────────────────

/-- C4: for both proof variants, past the recipient check the amount gate
passes exactly when the micro-unit amount is at least
`round(requiredAmountDecimal * 1_000_000)` (equality accepted); an
insufficient amount yields `valid=false` with an error carrying the
required decimal amount and the received amount in decimal form. -/
theorem amount_check_spec (cfg : X402VerifierConfig)
    (payer recipient tx sig fromA toA network signature nonce : String)
    (m ts va vb now : Int) (sigVerify : JsVal → Except JsErr Bool) :
    (jsToLower recipient = jsToLower cfg.recipientAddress →
      (jsMathRound (cfg.requiredAmountUSDC * 1000000) ≤ m →
        verifyMockProof cfg (mockProofVal payer recipient tx sig m ts) =
          .ok { valid := true, amount := m, recipient := recipient, payer := .str payer,
                txHash := if jsTruthy (.str tx) then some tx else none, error := none }) ∧
      (m < jsMathRound (cfg.requiredAmountUSDC * 1000000) →
        verifyMockProof cfg (mockProofVal payer recipient tx sig m ts) =
          .ok { valid := false, amount := m, recipient := recipient, payer := .str payer,
                txHash := if jsTruthy (.str tx) then some tx else none,
                error := some (.insufficientAmount cfg.requiredAmountUSDC ((m : ℚ) / 1000000)) })) ∧
    (jsToLower toA = jsToLower cfg.recipientAddress →
      (m < jsMathRound (cfg.requiredAmountUSDC * 1000000) →
        verifyRealX402Proof cfg now sigVerify
            (realProofVal network signature (delegatedAuthVal fromA toA m va vb nonce)) =
          .ok { valid := false, amount := m, recipient := toA, payer := .str fromA,
                txHash := none,
                error := some (.insufficientAmount cfg.requiredAmountUSDC ((m : ℚ) / 1000000)) }) ∧
      (jsMathRound (cfg.requiredAmountUSDC * 1000000) ≤ m →
        ∀ r, verifyRealX402Proof cfg now sigVerify
            (realProofVal network signature (delegatedAuthVal fromA toA m va vb nonce)) = .ok r →
          ∀ q g, r.error ≠ some (.insufficientAmount q g))) := by
  refine ⟨fun hrec => ⟨fun hm => ?_, fun hm => ?_⟩,
          fun hrec => ⟨fun hm => ?_, fun hm r hr q g => ?_⟩⟩
  · rw [verifyMockProof_mockProofVal, verifyMockChecks_pass cfg m recipient payer _ hrec hm]
  · rw [verifyMockProof_mockProofVal, verifyMockChecks_insufficient cfg m recipient payer _ hrec hm]
  · rw [verifyRealX402Proof_realProofVal,
      verifyRealChecks_insufficient cfg now sigVerify _ _ m toA (.str fromA) _ _ hrec hm]
  · rw [verifyRealX402Proof_realProofVal] at hr
    have hre : verifyRealChecks cfg now sigVerify
        (realProofVal network signature (delegatedAuthVal fromA toA m va vb nonce))
        (delegatedAuthVal fromA toA m va vb nonce) m toA (.str fromA)
        (.str (intToDecimal va)) (.str (intToDecimal vb)) = r := Except.ok.inj hr
    rw [← hre]
    exact verifyRealChecks_sufficient_never_insufficient cfg now sigVerify _ _ m toA
      (.str fromA) _ _ hrec hm q g

/-- Witness for C4: at price $0.001 an exact 1000-micro-unit mock payment is
accepted and a 999-micro-unit one is rejected with both amounts reported. -/
theorem amount_check_spec_witness :
    (verifyMockProof cfgW (mockProofVal ("0xp") ("0xr") ("0xt") ("0xs") 1000 0) =
      .ok { valid := true, amount := 1000, recipient := "0xr", payer := .str "0xp",
            txHash := some "0xt", error := none }) ∧
    (verifyMockProof cfgW (mockProofVal ("0xp") ("0xr") ("0xt") ("0xs") 999 0) =
      .ok { valid := false, amount := 999, recipient := "0xr", payer := .str "0xp",
            txHash := some "0xt",
            error := some (.insufficientAmount (1/1000) ((999 : ℚ) / 1000000)) }) := by
  constructor
  · exact ((amount_check_spec cfgW ("0xp") ("0xr") ("0xt") ("0xs") ("0xf") ("0xr")
      ("base-sepolia") ("0xg") ("0xn") 1000 0 0 0 0 sigW).1 rfl).1
      (by norm_num [cfgW, jsMathRound])
  · exact ((amount_check_spec cfgW ("0xp") ("0xr") ("0xt") ("0xs") ("0xf") ("0xr")
      ("base-sepolia") ("0xg") ("0xn") 999 0 0 0 0 sigW).1 rfl).2
      (by norm_num [cfgW, jsMathRound])

-- ── C10 ─────────────────────────────────────────────────────────────────────

/-- C10: in strict mode (`simulationMode = false`), a Simple/mock-format
proof whose recipient matches case-insensitively and whose amount meets the
required micro-unit amount verifies `valid=true`; the result does not
depend on the signature oracle or on the current time, because the mock
path performs no signature and no time-window check. -/
theorem strict_mode_mock_no_crypto (cfg : X402VerifierConfig)
    (payer recipient tx sig wire : String) (m ts now : Int)
    (sigVerify : JsVal → Except JsErr Bool) (pB64 pRaw : String → Option JsVal)
    (hsim : cfg.simulationMode = some false) (hw : wire ≠ "")
    (hdec : pB64 wire = some (mockProofVal payer recipient tx sig m ts))
    (hrec : jsToLower recipient = jsToLower cfg.recipientAddress)
    (hm : jsMathRound (cfg.requiredAmountUSDC * 1000000) ≤ m) :
    X402Verifier.verify cfg now sigVerify pB64 pRaw wire =
      .ok { valid := true, amount := m, recipient := recipient, payer := .str payer,
            txHash := if jsTruthy (.str tx) then some tx else none, error := none } := by
  rw [verify_mock_wire cfg now sigVerify pB64 pRaw wire payer recipient tx sig m ts hw hdec,
    verifyMockProof_mockProofVal, verifyMockChecks_pass cfg m recipient payer _ hrec hm]

/-- Witness for C10: a strict-mode verifier accepts a matching mock proof
at two different clock values, with no signature material consulted. -/
theorem strict_mode_mock_no_crypto_witness :
    (X402Verifier.verify cfgStrict 0 sigW pMockW pNone ("W") =
      .ok { valid := true, amount := 1000, recipient := "0xr", payer := .str "0xp",
            txHash := some "0xt", error := none }) ∧
    (X402Verifier.verify cfgStrict 99999 (fun _ => .error .typeError) pMockW pNone ("W") =
      .ok { valid := true, amount := 1000, recipient := "0xr", payer := .str "0xp",
            txHash := some "0xt", error := none }) := by
  constructor
  · exact strict_mode_mock_no_crypto cfgStrict ("0xp") ("0xr") ("0xt") ("0xs") ("W")
      1000 0 0 sigW pMockW pNone rfl (by decide) rfl rfl
      (by norm_num [cfgStrict, jsMathRound])
  · exact strict_mode_mock_no_crypto cfgStrict ("0xp") ("0xr") ("0xt") ("0xs") ("W")
      1000 0 99999 (fun _ => .error .typeError) pMockW pNone rfl (by decide) rfl rfl
      (by norm_num [cfgStrict, jsMathRound])

-- ── C5 ──────────────────────────────────────────────────────────────────────

/-- Counterexample to C5 as stated: with a degenerate window
`validAfter = 100`, `validBefore = 50` and `now = 70`, we have
`now ≥ validBefore`, yet the result carries the "not yet valid" error (the
`now < validAfter` check runs first), not an "expired"-class error. -/
theorem delegated_time_window_cex :
    verifyRealX402Proof cfgW 70 sigW
        (realProofVal ("base-sepolia") ("0xs") (delegatedAuthVal ("0xp") ("0xr") 1000 100 50 ("0xn"))) =
      .ok { valid := false, amount := 1000, recipient := "0xr", payer := .str "0xp",
            txHash := none, error := some (.notYetValid 100) } ∧ ((50 : Int) ≤ 70) := by
  constructor
  · rw [verifyRealX402Proof_realProofVal]
    rw [verifyRealChecks_notYetValid cfgW 70 sigW _ _ 1000 100 50 ("0xr") (.str "0xp") rfl
      (by norm_num [cfgW, jsMathRound]) (by norm_num)]
  · norm_num

/-- C5 (amended): for a well-formed Delegated proof past the recipient and
amount checks, the time-window gate passes exactly when
`validAfter ≤ now < validBefore`; `now < validAfter` yields the
"not yet valid" error (this check runs first, also on degenerate windows),
`validAfter ≤ now` together with `now ≥ validBefore` yields the "expired"
error, and a pass never yields a window-class error.  Simple-variant proofs
undergo no time-window check: the verdict is identical at any two clock
values. -/
theorem delegated_time_window_spec (cfg : X402VerifierConfig)
    (fromA toA network signature nonce : String) (m va vb now : Int)
    (sigVerify : JsVal → Except JsErr Bool)
    (hrec : jsToLower toA = jsToLower cfg.recipientAddress)
    (hm : jsMathRound (cfg.requiredAmountUSDC * 1000000) ≤ m) :
    (now < va →
      verifyRealX402Proof cfg now sigVerify
          (realProofVal network signature (delegatedAuthVal fromA toA m va vb nonce)) =
        .ok { valid := false, amount := m, recipient := toA, payer := .str fromA,
              txHash := none, error := some (.notYetValid va) }) ∧
    (va ≤ now → vb ≤ now →
      verifyRealX402Proof cfg now sigVerify
          (realProofVal network signature (delegatedAuthVal fromA toA m va vb nonce)) =
        .ok { valid := false, amount := m, recipient := toA, payer := .str fromA,
              txHash := none, error := some (.expired vb) }) ∧
    (va ≤ now → now < vb →
      ∀ r, verifyRealX402Proof cfg now sigVerify
          (realProofVal network signature (delegatedAuthVal fromA toA m va vb nonce)) = .ok r →
        ∀ t, r.error ≠ some (.notYetValid t) ∧ r.error ≠ some (.expired t)) ∧
    (∀ (payer recipient tx sig : String) (m' ts now₁ now₂ : Int)
       (pB64 pRaw : String → Option JsVal) (wire : String), wire ≠ "" →
      pB64 wire = some (mockProofVal payer recipient tx sig m' ts) →
      X402Verifier.verify cfg now₁ sigVerify pB64 pRaw wire =
        X402Verifier.verify cfg now₂ sigVerify pB64 pRaw wire) := by
  refine ⟨fun hnv => ?_, fun hva hvb => ?_, fun hva hvb r hr t => ?_, ?_⟩
  · rw [verifyRealX402Proof_realProofVal,
      verifyRealChecks_notYetValid cfg now sigVerify _ _ m va vb toA (.str fromA) hrec hm hnv]
  · rw [verifyRealX402Proof_realProofVal,
      verifyRealChecks_expired cfg now sigVerify _ _ m va vb toA (.str fromA) hrec hm hva hvb]
  · rw [verifyRealX402Proof_realProofVal] at hr
    have hre := Except.ok.inj hr
    have hcls := verifyRealChecks_window_pass_error_class cfg now sigVerify
      (realProofVal network signature (delegatedAuthVal fromA toA m va vb nonce))
      (delegatedAuthVal fromA toA m va vb nonce) m va vb toA (.str fromA) hrec hm hva hvb
    rw [hre] at hcls
    rcases hcls with h | h | h <;> rw [h] <;> exact ⟨by simp, by simp⟩
  · intro payer recipient tx sig m' ts now₁ now₂ pB64 pRaw wire hw hdec
    rw [verify_mock_wire cfg now₁ sigVerify pB64 pRaw wire payer recipient tx sig m' ts hw hdec,
      verify_mock_wire cfg now₂ sigVerify pB64 pRaw wire payer recipient tx sig m' ts hw hdec]

/-- Witness for C5 (amended): at price $0.001, amount 1000, window
`[100, 200)`: not yet valid at `now = 70`, expired at `now = 250`, and the
mock-format verdict is clock-independent. -/
theorem delegated_time_window_spec_witness :
    (verifyRealX402Proof cfgW 70 sigW
        (realProofVal ("base-sepolia") ("0xs") (delegatedAuthVal ("0xp") ("0xr") 1000 100 200 ("0xn"))) =
      .ok { valid := false, amount := 1000, recipient := "0xr", payer := .str "0xp",
            txHash := none, error := some (.notYetValid 100) }) ∧
    (verifyRealX402Proof cfgW 250 sigW
        (realProofVal ("base-sepolia") ("0xs") (delegatedAuthVal ("0xp") ("0xr") 1000 100 200 ("0xn"))) =
      .ok { valid := false, amount := 1000, recipient := "0xr", payer := .str "0xp",
            txHash := none, error := some (.expired 200) }) ∧
    (X402Verifier.verify cfgW 0 sigW pMockW pNone ("W") =
      X402Verifier.verify cfgW 424242 sigW pMockW pNone ("W")) := by
  refine ⟨?_, ?_, ?_⟩
  · exact (delegated_time_window_spec cfgW ("0xp") ("0xr") ("base-sepolia") ("0xs") ("0xn")
      1000 100 200 70 sigW rfl (by norm_num [cfgW, jsMathRound])).1 (by norm_num)
  · exact ((delegated_time_window_spec cfgW ("0xp") ("0xr") ("base-sepolia") ("0xs") ("0xn")
      1000 100 200 250 sigW rfl (by norm_num [cfgW, jsMathRound])).2.1 (by norm_num) (by norm_num))
  · exact ((delegated_time_window_spec cfgW ("0xp") ("0xr") ("base-sepolia") ("0xs") ("0xn")
      1000 100 200 0 sigW rfl (by norm_num [cfgW, jsMathRound])).2.2.2 ("0xp") ("0xr") ("0xt")
      ("0xs") 1000 0 0 424242 pMockW pNone ("W") (by decide) rfl)

-- ── C9 ──────────────────────────────────────────────────────────────────────

/-- C9: constructing a proof for a decimal amount `a` (either constructor)
and decoding the wire again yields an amount field whose integer value —
via the verifier's own `BigInt` conversion — is exactly
`round(a * 1_000_000)`.  The base64/JSON wire codec is the ambient
capability: `hdec`/`hdec'` state that it inverts encoding on these wires. -/
theorem proof_amount_roundtrip (pB64 pRaw : String → Option JsVal)
    (wire₁ wire₂ payer recipient fromA toA network tx sig sig' nonce : String)
    (a : ℚ) (ts now : Int)
    (hdec : pB64 wire₁ = some (createMockPaymentProofVal payer recipient a tx sig ts))
    (hdec' : pB64 wire₂ = some (createRealX402ProofVal fromA toA a network sig' nonce now)) :
    (decodePaymentProof pB64 pRaw wire₁ =
      .ok (createMockPaymentProofVal payer recipient a tx sig ts)) ∧
    (strToBigInt (jsString (jsGetD (createMockPaymentProofVal payer recipient a tx sig ts)
        ("amount"))) = .ok (jsMathRound (a * 1000000))) ∧
    (decodePaymentProof pB64 pRaw wire₂ =
      .ok (createRealX402ProofVal fromA toA a network sig' nonce now)) ∧
    (strToBigInt (jsString (jsGetD (jsGetD (jsGetD
        (createRealX402ProofVal fromA toA a network sig' nonce now) ("payload"))
        ("authorization")) ("value"))) = .ok (jsMathRound (a * 1000000))) := by
  refine ⟨?_, ?_, ?_, ?_⟩
  · unfold decodePaymentProof
    rw [hdec]
    rfl
  · show strToBigInt (intToDecimal (jsMathRound (a * 1000000))) = _
    exact strToBigInt_intToDecimal _
  · unfold decodePaymentProof
    rw [hdec']
    rfl
  · show strToBigInt (intToDecimal (jsMathRound (a * 1000000))) = _
    exact strToBigInt_intToDecimal _

/-- Witness for C9 at `a = 0.005` (5000 micro-units). -/
theorem proof_amount_roundtrip_witness :
    (decodePaymentProof
        (fun s => if s = "A" then
          some (createMockPaymentProofVal ("0xp") ("0xr") (0.005 : ℚ) ("0xt") ("0xs") 0)
         else if s = "B" then
          some (createRealX402ProofVal ("0xp") ("0xr") (0.005 : ℚ) ("base-sepolia") ("0xs") ("0xn") 0)
         else none) pNone ("A") =
      .ok (createMockPaymentProofVal ("0xp") ("0xr") (0.005 : ℚ) ("0xt") ("0xs") 0)) ∧
    (strToBigInt (jsString (jsGetD
        (createMockPaymentProofVal ("0xp") ("0xr") (0.005 : ℚ) ("0xt") ("0xs") 0) ("amount"))) =
      .ok (jsMathRound ((0.005 : ℚ) * 1000000))) ∧
    jsMathRound ((0.005 : ℚ) * 1000000) = 5000 := by
  refine ⟨?_, ?_, by norm_num [jsMathRound]⟩
  · exact (proof_amount_roundtrip
      (fun s => if s = "A" then
        some (createMockPaymentProofVal ("0xp") ("0xr") (0.005 : ℚ) ("0xt") ("0xs") 0)
       else if s = "B" then
        some (createRealX402ProofVal ("0xp") ("0xr") (0.005 : ℚ) ("base-sepolia") ("0xs") ("0xn") 0)
       else none) pNone ("A") ("B") ("0xp") ("0xr") ("0xp") ("0xr") ("base-sepolia")
      ("0xt") ("0xs") ("0xs") ("0xn") (0.005 : ℚ) 0 0 rfl rfl).1
  · exact (proof_amount_roundtrip
      (fun s => if s = "A" then
        some (createMockPaymentProofVal ("0xp") ("0xr") (0.005 : ℚ) ("0xt") ("0xs") 0)
       else if s = "B" then
        some (createRealX402ProofVal ("0xp") ("0xr") (0.005 : ℚ) ("base-sepolia") ("0xs") ("0xn") 0)
       else none) pNone ("A") ("B") ("0xp") ("0xr") ("0xp") ("0xr") ("base-sepolia")
      ("0xt") ("0xs") ("0xs") ("0xn") (0.005 : ℚ) 0 0 rfl rfl).2.1

-- ── C2 ──────────────────────────────────────────────────────────────────────

/-- Counterexample to C2 as stated: a structurally classified mock proof
whose `amount` field holds the non-numeric string `"xyz"` makes `verify`
throw (`BigInt(String("xyz"))` raises `SyntaxError`) instead of returning
a `valid=false` result. -/
theorem verify_never_raises_cex :
    X402Verifier.verify cfgW 0 sigW
        (fun s => if s = "M" then
          some (.obj [("recipient", .str "0xr"), ("amount", .str "xyz"), ("payer", .str "0xp")])
         else none)
        pNone ("M") = .error .syntaxError := rfl

/-- C2 (amended): `verify` returns a `valid=false` result with a
descriptive error — and never throws — on empty input, on input that fails
to decode, and on decoded values matching neither proof shape; it also
never throws on classified proofs whose consumed fields are well-typed
strings.  (A classified proof with an ill-typed field value can still make
`verify` throw, per the counterexample.) -/
theorem verify_total_spec (cfg : X402VerifierConfig) (now : Int)
    (sigVerify : JsVal → Except JsErr Bool) (pB64 pRaw : String → Option JsVal)
    (wire : String) :
    (X402Verifier.verify cfg now sigVerify pB64 pRaw ("") =
      .ok (mkFailVerification .missingProof)) ∧
    (∀ e, wire ≠ "" → decodePaymentProof pB64 pRaw wire = .error e →
      X402Verifier.verify cfg now sigVerify pB64 pRaw wire =
        .ok (mkFailVerification (.decodeFailed e))) ∧
    (∀ d, wire ≠ "" → decodePaymentProof pB64 pRaw wire = .ok d →
      isRealX402Proof d = false → isMockProof d = false →
      X402Verifier.verify cfg now sigVerify pB64 pRaw wire =
        .ok (mkFailVerification .unrecognizedFormat)) ∧
    (∀ e, (mkFailVerification e).valid = false ∧ (mkFailVerification e).error = some e) ∧
    (∀ (payer recipient tx sig : String) (m ts : Int), wire ≠ "" →
      pB64 wire = some (mockProofVal payer recipient tx sig m ts) →
      X402Verifier.verify cfg now sigVerify pB64 pRaw wire =
        .ok (verifyMockChecks cfg m recipient payer
          (if jsTruthy (.str tx) then some tx else none))) ∧
    (∀ (fromA toA network signature nonce : String) (m va vb : Int), wire ≠ "" →
      pB64 wire = some (realProofVal network signature (delegatedAuthVal fromA toA m va vb nonce)) →
      X402Verifier.verify cfg now sigVerify pB64 pRaw wire =
        .ok (verifyRealChecks cfg now sigVerify
          (realProofVal network signature (delegatedAuthVal fromA toA m va vb nonce))
          (delegatedAuthVal fromA toA m va vb nonce) m toA (.str fromA)
          (.str (intToDecimal va)) (.str (intToDecimal vb)))) := by
  refine ⟨rfl, fun e hw hd => ?_, fun d hw hd hreal hmock => ?_, fun e => ⟨rfl, rfl⟩,
          fun payer recipient tx sig m ts hw hdec => ?_,
          fun fromA toA network signature nonce m va vb hw hdec => ?_⟩
  · unfold X402Verifier.verify
    rw [if_neg hw, hd]
  · unfold X402Verifier.verify
    rw [if_neg hw, hd]
    simp only [hreal, hmock]
    rfl
  · rw [verify_mock_wire cfg now sigVerify pB64 pRaw wire payer recipient tx sig m ts hw hdec,
      verifyMockProof_mockProofVal]
  · rw [verify_real_wire cfg now sigVerify pB64 pRaw wire fromA toA network signature nonce
      m va vb hw hdec, verifyRealX402Proof_realProofVal]

/-- Witness for C2 (amended) at concrete inputs: empty wire, an
undecodable wire, an unclassifiable decoded value, and a well-formed mock
wire. -/
theorem verify_total_spec_witness :
    (X402Verifier.verify cfgW 0 sigW pNone pNone ("") =
      .ok (mkFailVerification .missingProof)) ∧
    (X402Verifier.verify cfgW 0 sigW pNone pNone ("garbage") =
      .ok (mkFailVerification (.decodeFailed .invalidFormat))) ∧
    (X402Verifier.verify cfgW 0 sigW
        (fun s => if s = "U" then some (.obj [("hello", .str "world")]) else none) pNone ("U") =
      .ok (mkFailVerification .unrecognizedFormat)) ∧
    (X402Verifier.verify cfgW 0 sigW pMockW pNone ("W") =
      .ok (verifyMockChecks cfgW 1000 ("0xr") ("0xp") (some "0xt"))) := by
  refine ⟨(verify_total_spec cfgW 0 sigW pNone pNone ("")).1, ?_, ?_, ?_⟩
  · exact (verify_total_spec cfgW 0 sigW pNone pNone ("garbage")).2.1 .invalidFormat
      (by decide) rfl
  · exact (verify_total_spec cfgW 0 sigW
      (fun s => if s = "U" then some (.obj [("hello", .str "world")]) else none) pNone ("U")).2.2.1
      (.obj [("hello", .str "world")]) (by decide) rfl rfl rfl
  · exact (verify_total_spec cfgW 0 sigW pMockW pNone ("W")).2.2.2.2.1
      ("0xp") ("0xr") ("0xt") ("0xs") 1000 0 (by decide) rfl

-- ── C1 ──────────────────────────────────────────────────────────────────────

/-- C1: when the verifier rejects the proof (`valid=false`), `invoke`
returns `allowed=false` carrying the verification's error with no
`workflowResult` and no `pricePaid`, and the registry's `execute` never
runs (the registry state is returned unchanged, for every registry);
when the proof verifies valid, `invoke` runs `execute` and returns
`allowed=true` with its result and the required price. -/
theorem gateway_invoke_gates_execution (cfg : PaymentGatewayConfig) {σ : Type}
    (reg : CREWorkflowRegistryM σ) (now : Int) (sigVerify : JsVal → Except JsErr Bool)
    (pB64 pRaw : String → Option JsVal) (requestId createdAt workflowName : String)
    (payload : JsVal) (paymentProof : String) (s : σ) (p : X402PaymentVerification)
    (hv : X402Verifier.verify (gatewayVerifierConfig cfg reg workflowName) now sigVerify
      pB64 pRaw paymentProof = .ok p) :
    (p.valid = false →
      X402CREPaymentGateway.invoke cfg reg now sigVerify pB64 pRaw requestId createdAt
          workflowName payload paymentProof s =
        (.ok { allowed := false, payment := p, workflowResult := none, pricePaid := none,
               error := some (p.error.getD .genericFailure) }, s)) ∧
    (p.valid = true →
      X402CREPaymentGateway.invoke cfg reg now sigVerify pB64 pRaw requestId createdAt
          workflowName payload paymentProof s =
        (.ok { allowed := true, payment := p,
               workflowResult := some (reg.execute
                 { requestId := requestId, workflowName := workflowName, payload := payload,
                   paymentProof := paymentProof, createdAt := createdAt } s).1,
               pricePaid := some (gatewayRequiredPrice cfg reg workflowName),
               error := none },
         (reg.execute
           { requestId := requestId, workflowName := workflowName, payload := payload,
             paymentProof := paymentProof, createdAt := createdAt } s).2)) := by
  constructor
  · intro h
    unfold X402CREPaymentGateway.invoke
    rw [hv]
    simp [h]
  · intro h
    unfold X402CREPaymentGateway.invoke
    rw [hv]
    simp [h]

/-- A registry over a call counter: `execute` bumps the counter, so the
counter observes whether a handler actually ran. -/
def wReg : CREWorkflowRegistryM Nat :=
  { getWorkflow := fun _ => none,
    execute := fun req n =>
      ({ requestId := req.requestId, workflowName := req.workflowName,
         status := .success, result := .num 7, error := none }, n + 1) }

/-- A gateway config paying to `0xr` (defaults: price $0.001, simulation). -/
def wGwCfg : PaymentGatewayConfig := { recipientAddress := "0xr" }

/-- Witness for C1: a wire that fails to decode is denied with the counter
still 0; the well-formed mock wire is allowed with the counter bumped. -/
theorem gateway_invoke_gates_execution_witness :
    (X402CREPaymentGateway.invoke wGwCfg wReg 0 sigW pNone pNone ("r1") ("t0") ("wf")
        (.obj []) ("zz") 0 =
      (.ok { allowed := false,
             payment := mkFailVerification (.decodeFailed .invalidFormat),
             workflowResult := none, pricePaid := none,
             error := some (.decodeFailed .invalidFormat) }, 0)) ∧
    (X402CREPaymentGateway.invoke wGwCfg wReg 0 sigW pMockW pNone ("r1") ("t0") ("wf")
        (.obj []) ("W") 0 =
      (.ok { allowed := true,
             payment := { valid := true, amount := 1000, recipient := "0xr",
                          payer := .str "0xp", txHash := some "0xt", error := none },
             workflowResult := some { requestId := "r1", workflowName := "wf",
                                      status := .success, result := .num 7, error := none },
             pricePaid := some ((0.001 : ℚ)),
             error := none }, 1)) := by
  constructor
  · exact (gateway_invoke_gates_execution wGwCfg wReg 0 sigW pNone pNone ("r1") ("t0")
      ("wf") (.obj []) ("zz") 0 (mkFailVerification (.decodeFailed .invalidFormat)) rfl).1 rfl
  · have hv : X402Verifier.verify (gatewayVerifierConfig wGwCfg wReg ("wf")) 0 sigW pMockW
        pNone ("W") =
        .ok { valid := true, amount := 1000, recipient := "0xr", payer := .str "0xp",
              txHash := some "0xt", error := none } := by
      rw [verify_mock_wire _ 0 sigW pMockW pNone ("W") ("0xp") ("0xr") ("0xt") ("0xs")
        1000 0 (by decide) rfl, verifyMockProof_mockProofVal,
        verifyMockChecks_pass _ 1000 ("0xr") ("0xp") _ rfl
          (by norm_num [gatewayVerifierConfig, gatewayRequiredPrice, wGwCfg, wReg, jsMathRound])]
      rfl
    exact (gateway_invoke_gates_execution wGwCfg wReg 0 sigW pMockW pNone ("r1") ("t0")
      ("wf") (.obj []) ("W") 0 _ hv).2 rfl

-- ── C8 ──────────────────────────────────────────────────────────────────────

/-- C8: `orchestrateAgentTask` raises (returns `.error`) carrying the
verification error exactly when the gated `invoke` is denied, while
`invoke` itself reports the same denial as a returned result object; on an
allowed gate it returns the routed workflow name, the price spent, and the
workflow's output. -/
theorem orchestrateAgentTask_raises_on_denial (cfg : PaymentGatewayConfig) {σ : Type}
    (reg : CREWorkflowRegistryM σ) (now : Int) (sigVerify : JsVal → Except JsErr Bool)
    (pB64 pRaw : String → Option JsVal) (taskId requestId createdAt : String)
    (task : AgentTaskRequest) (paymentProof : String) (s : σ) (p : X402PaymentVerification)
    (hv : X402Verifier.verify (gatewayVerifierConfig cfg reg (routeTask task.task)) now
      sigVerify pB64 pRaw paymentProof = .ok p) :
    (p.valid = false →
      X402CREPaymentGateway.orchestrateAgentTask cfg reg now sigVerify pB64 pRaw taskId
          requestId createdAt task paymentProof s =
        (.error (.denied (p.error.getD .genericFailure)), s) ∧
      X402CREPaymentGateway.invoke cfg reg now sigVerify pB64 pRaw requestId createdAt
          (routeTask task.task) (task.params.getD (.obj [("task", .str task.task)]))
          paymentProof s =
        (.ok { allowed := false, payment := p, workflowResult := none, pricePaid := none,
               error := some (p.error.getD .genericFailure) }, s)) ∧
    (p.valid = true →
      X402CREPaymentGateway.orchestrateAgentTask cfg reg now sigVerify pB64 pRaw taskId
          requestId createdAt task paymentProof s =
        (.ok { taskId := taskId, task := task.task,
               workflowsInvoked := [routeTask task.task],
               totalSpentUSDC := gatewayRequiredPrice cfg reg (routeTask task.task),
               result := (reg.execute
                 { requestId := requestId, workflowName := routeTask task.task,
                   payload := task.params.getD (.obj [("task", .str task.task)]),
                   paymentProof := paymentProof, createdAt := createdAt } s).1.result,
               paymentGated := true },
         (reg.execute
           { requestId := requestId, workflowName := routeTask task.task,
             payload := task.params.getD (.obj [("task", .str task.task)]),
             paymentProof := paymentProof, createdAt := createdAt } s).2)) := by
  constructor
  · intro h
    constructor
    · unfold X402CREPaymentGateway.orchestrateAgentTask X402CREPaymentGateway.invoke
      simp [hv, h]
    · unfold X402CREPaymentGateway.invoke
      simp [hv, h]
  · intro h
    unfold X402CREPaymentGateway.orchestrateAgentTask X402CREPaymentGateway.invoke
    simp [hv, h]

/-- Witness for C8: a task routed to `price-feed` (keyword `price`): the
undecodable wire makes the task call fail with the decode error while
`invoke` returns the denial as data; the well-formed wire yields the task
result with the routed name, price and output. -/
theorem orchestrateAgentTask_raises_on_denial_witness :
    (X402CREPaymentGateway.orchestrateAgentTask wGwCfg wReg 0 sigW pNone pNone ("tk")
        ("r1") ("t0") { task := "get price of ETH" } ("zz") 0 =
      (.error (.denied (.decodeFailed .invalidFormat)), 0)) ∧
    (X402CREPaymentGateway.invoke wGwCfg wReg 0 sigW pNone pNone ("r1") ("t0")
        ("price-feed") (.obj [("task", .str "get price of ETH")]) ("zz") 0 =
      (.ok { allowed := false,
             payment := mkFailVerification (.decodeFailed .invalidFormat),
             workflowResult := none, pricePaid := none,
             error := some (.decodeFailed .invalidFormat) }, 0)) ∧
    (X402CREPaymentGateway.orchestrateAgentTask wGwCfg wReg 0 sigW pMockW pNone ("tk")
        ("r1") ("t0") { task := "get price of ETH" } ("W") 0 =
      (.ok { taskId := "tk", task := "get price of ETH",
             workflowsInvoked := ["price-feed"],
             totalSpentUSDC := (0.001 : ℚ),
             result := .num 7, paymentGated := true }, 1)) := by
  have hroute : routeTask ("get price of ETH") = "price-feed" := by decide
  refine ⟨?_, ?_, ?_⟩
  · exact ((orchestrateAgentTask_raises_on_denial wGwCfg wReg 0 sigW pNone pNone ("tk")
      ("r1") ("t0") { task := "get price of ETH" } ("zz") 0
      (mkFailVerification (.decodeFailed .invalidFormat)) rfl).1 rfl).1
  · have h := ((orchestrateAgentTask_raises_on_denial wGwCfg wReg 0 sigW pNone pNone ("tk")
      ("r1") ("t0") { task := "get price of ETH" } ("zz") 0
      (mkFailVerification (.decodeFailed .invalidFormat)) rfl).1 rfl).2
    rw [hroute] at h
    exact h
  · have hv : X402Verifier.verify
        (gatewayVerifierConfig wGwCfg wReg (routeTask ("get price of ETH"))) 0 sigW pMockW
        pNone ("W") =
        .ok { valid := true, amount := 1000, recipient := "0xr", payer := .str "0xp",
              txHash := some "0xt", error := none } := by
      rw [verify_mock_wire _ 0 sigW pMockW pNone ("W") ("0xp") ("0xr") ("0xt") ("0xs")
        1000 0 (by decide) rfl, verifyMockProof_mockProofVal,
        verifyMockChecks_pass _ 1000 ("0xr") ("0xp") _ rfl
          (by norm_num [gatewayVerifierConfig, gatewayRequiredPrice, wGwCfg, wReg, jsMathRound])]
      rfl
    have h := (orchestrateAgentTask_raises_on_denial wGwCfg wReg 0 sigW pMockW pNone ("tk")
      ("r1") ("t0") { task := "get price of ETH" } ("W") 0 _ hv).2 rfl
    rw [hroute] at h
    exact h

-- ── Lemmas: orchestrator loop invariants ────────────────────────────────────

/-- Total spend recorded across a list of step results. -/
def sumSpent (l : List StepResult) : ℚ := (l.map (fun s => s.spentUSDC.getD 0)).sum

theorem sumSpent_nil : sumSpent [] = 0 := rfl

theorem sumSpent_cons (e : StepResult) (l : List StepResult) :
    sumSpent (e :: l) = e.spentUSDC.getD 0 + sumSpent l := by
  simp [sumSpent]

theorem orchLoop_cons {σ : Type} (client : AgentClientModel σ) (cof : Bool)
    (tr : JsVal → String → Nat → Except String JsVal) (step : OrchStepSpec)
    (rest : List OrchStepSpec) (i : Nat) (c : OrchCore σ) :
    orchLoop client cof tr (step :: rest) i c =
      ((orchStep client cof tr step (rest.head?.map OrchStepSpec.workflowName) i c).1 ::
        (orchLoop client cof tr rest (i + 1)
          (orchStep client cof tr step (rest.head?.map OrchStepSpec.workflowName) i c).2).1,
       (orchLoop client cof tr rest (i + 1)
         (orchStep client cof tr step (rest.head?.map OrchStepSpec.workflowName) i c).2).2) := rfl

theorem orchStep_spend {σ : Type} (client : AgentClientModel σ) (cof : Bool)
    (tr : JsVal → String → Nat → Except String JsVal) (step : OrchStepSpec)
    (nextName? : Option String) (i : Nat) (c : OrchCore σ) :
    (orchStep client cof tr step nextName? i c).2.totalSpentUSDC =
      c.totalSpentUSDC + (orchStep client cof tr step nextName? i c).1.spentUSDC.getD 0 := by
  unfold orchStep
  split
  · simp
  · split
    · simp
    · split
      · simp
      · split
        · simp
        · split <;> simp

theorem orchStep_hasFailure {σ : Type} (client : AgentClientModel σ) (cof : Bool)
    (tr : JsVal → String → Nat → Except String JsVal) (step : OrchStepSpec)
    (nextName? : Option String) (i : Nat) (c : OrchCore σ) :
    (orchStep client cof tr step nextName? i c).2.hasFailure = true ↔
      (c.hasFailure = true ∨ (orchStep client cof tr step nextName? i c).1.status = .failed) := by
  unfold orchStep
  split
  · rename_i h
    simp only [Bool.and_eq_true] at h
    simp [h.1]
  · split
    · simp
    · split
      · simp
      · split
        · simp
        · split <;> simp

theorem orchStep_skip_iff {σ : Type} (client : AgentClientModel σ) (cof : Bool)
    (tr : JsVal → String → Nat → Except String JsVal) (step : OrchStepSpec)
    (nextName? : Option String) (i : Nat) (c : OrchCore σ) :
    (orchStep client cof tr step nextName? i c).1.status = .skipped ↔
      (c.hasFailure = true ∧ cof = false) := by
  unfold orchStep
  split
  · rename_i h
    simp only [Bool.and_eq_true, Bool.not_eq_true'] at h
    simp [h.1, h.2]
  · rename_i h
    simp only [Bool.and_eq_true, Bool.not_eq_true'] at h
    split
    · simp [h]
    · split
      · simp [h]
      · split
        · simp [h]
        · split <;> simp [h]

theorem orchStep_skip_state {σ : Type} (client : AgentClientModel σ)
    (tr : JsVal → String → Nat → Except String JsVal) (step : OrchStepSpec)
    (nextName? : Option String) (i : Nat) (c : OrchCore σ) (hf : c.hasFailure = true) :
    orchStep client false tr step nextName? i c =
      ({ workflowName := step.workflowName, stepIndex := i, status := .skipped }, c) := by
  unfold orchStep
  rw [if_pos (by simp [hf])]

theorem orchLoop_spend {σ : Type} (client : AgentClientModel σ) (cof : Bool)
    (tr : JsVal → String → Nat → Except String JsVal) :
    ∀ (steps : List OrchStepSpec) (i : Nat) (c : OrchCore σ),
      (orchLoop client cof tr steps i c).2.totalSpentUSDC =
        c.totalSpentUSDC + sumSpent (orchLoop client cof tr steps i c).1 := by
  intro steps
  induction steps with
  | nil =>
    intro i c
    simp [orchLoop, sumSpent]
  | cons step rest ih =>
    intro i c
    rw [orchLoop_cons]
    show (orchLoop client cof tr rest (i + 1) _).2.totalSpentUSDC = _
    rw [ih, orchStep_spend, sumSpent_cons]
    ring

theorem orchLoop_all_skip {σ : Type} (client : AgentClientModel σ)
    (tr : JsVal → String → Nat → Except String JsVal) :
    ∀ (steps : List OrchStepSpec) (i : Nat) (c : OrchCore σ), c.hasFailure = true →
      (orchLoop client false tr steps i c).2 = c ∧
      ∀ e ∈ (orchLoop client false tr steps i c).1, e.status = .skipped := by
  intro steps
  induction steps with
  | nil =>
    intro i c _
    exact ⟨rfl, by simp [orchLoop]⟩
  | cons step rest ih =>
    intro i c hf
    rw [orchLoop_cons, orchStep_skip_state client tr step _ i c hf]
    obtain ⟨h1, h2⟩ := ih (i + 1) c hf
    refine ⟨h1, ?_⟩
    intro e he
    rcases List.mem_cons.mp he with rfl | hm
    · rfl
    · exact h2 e hm

theorem orchLoop_no_skip_cof {σ : Type} (client : AgentClientModel σ)
    (tr : JsVal → String → Nat → Except String JsVal) :
    ∀ (steps : List OrchStepSpec) (i : Nat) (c : OrchCore σ),
      ∀ e ∈ (orchLoop client true tr steps i c).1, e.status ≠ .skipped := by
  intro steps
  induction steps with
  | nil =>
    intro i c e he
    simp [orchLoop] at he
  | cons step rest ih =>
    intro i c e he
    rw [orchLoop_cons] at he
    rcases List.mem_cons.mp he with rfl | hm
    · intro hs
      have := (orchStep_skip_iff client true tr step
        (rest.head?.map OrchStepSpec.workflowName) i c).mp hs
      exact absurd this.2 (by simp)
    · exact ih (i + 1) _ e hm

/-- The status-list shape produced by a stop-on-failure run: a prefix of
successes, then optionally one failure followed only by skips. -/
inductive StopShape : List StepStatus → Prop
  | nil : StopShape []
  | succOk (l : List StepStatus) : StopShape l → StopShape (StepStatus.success :: l)
  | fails (l : List StepStatus) : (∀ s ∈ l, s = StepStatus.skipped) →
      StopShape (StepStatus.failed :: l)

theorem orchLoop_stopShape {σ : Type} (client : AgentClientModel σ)
    (tr : JsVal → String → Nat → Except String JsVal) :
    ∀ (steps : List OrchStepSpec) (i : Nat) (c : OrchCore σ), c.hasFailure = false →
      StopShape ((orchLoop client false tr steps i c).1.map StepResult.status) := by
  intro steps
  induction steps with
  | nil =>
    intro i c _
    exact StopShape.nil
  | cons step rest ih =>
    intro i c hf
    rw [orchLoop_cons]
    simp only [List.map_cons]
    rcases hstat : (orchStep client false tr step
        (rest.head?.map OrchStepSpec.workflowName) i c).1.status with _ | _ | _
    · -- success: the failure flag stays down
      have hf' : (orchStep client false tr step
          (rest.head?.map OrchStepSpec.workflowName) i c).2.hasFailure = false := by
        rcases hb : (orchStep client false tr step
            (rest.head?.map OrchStepSpec.workflowName) i c).2.hasFailure with _ | _
        · rfl
        · have := (orchStep_hasFailure client false tr step
            (rest.head?.map OrchStepSpec.workflowName) i c).mp hb
          rcases this with h | h
          · rw [h] at hf; exact absurd hf (by simp)
          · rw [h] at hstat; exact absurd hstat (by simp)
      exact StopShape.succOk _ (ih (i + 1) _ hf')
    · -- failed: the failure flag is up, everything after is skipped
      have hf' : (orchStep client false tr step
          (rest.head?.map OrchStepSpec.workflowName) i c).2.hasFailure = true :=
        (orchStep_hasFailure client false tr step
          (rest.head?.map OrchStepSpec.workflowName) i c).mpr (Or.inr hstat)
      apply StopShape.fails
      intro s hs
      rcases List.mem_map.mp hs with ⟨e, he, rfl⟩
      exact (orchLoop_all_skip client tr rest (i + 1) _ hf').2 e he
    · -- skipped at the head is impossible with the flag down
      have := (orchStep_skip_iff client false tr step
        (rest.head?.map OrchStepSpec.workflowName) i c).mp hstat
      rw [this.1] at hf
      exact absurd hf (by simp)

theorem stopShape_skip_has_earlier_fail (S : List StepStatus) (h : StopShape S) :
    ∀ i (hi : i < S.length), S.get ⟨i, hi⟩ = StepStatus.skipped →
      ∃ j, ∃ hj : j < S.length, j < i ∧ S.get ⟨j, hj⟩ = StepStatus.failed := by
  induction h with
  | nil =>
    intro i hi
    simp at hi
  | succOk l hl ih =>
    intro i hi hs
    cases i with
    | zero => simp at hs
    | succ i' =>
      have hi' : i' < l.length := by simpa using hi
      obtain ⟨j, hj, hji, hjf⟩ := ih i' hi' (by simpa using hs)
      exact ⟨j + 1, by simpa using hj, by omega, by simpa using hjf⟩
  | fails l hall =>
    intro i hi hs
    cases i with
    | zero => simp at hs
    | succ i' =>
      exact ⟨0, by simp, by omega, by simp⟩

theorem stopShape_fail_then_skip (S : List StepStatus) (h : StopShape S) :
    ∀ i j (hi : i < S.length) (hj : j < S.length), j < i →
      S.get ⟨j, hj⟩ = StepStatus.failed → S.get ⟨i, hi⟩ = StepStatus.skipped := by
  induction h with
  | nil =>
    intro i j hi
    simp at hi
  | succOk l hl ih =>
    intro i j hi hj hji hjf
    cases j with
    | zero => simp at hjf
    | succ j' =>
      cases i with
      | zero => omega
      | succ i' =>
        have hi' : i' < l.length := by simpa using hi
        have hj' : j' < l.length := by simpa using hj
        have := ih i' j' hi' hj' (by omega) (by simpa using hjf)
        simpa using this
  | fails l hall =>
    intro i j hi hj hji hjf
    cases i with
    | zero => omega
    | succ i' =>
      have hi' : i' < l.length := by simpa using hi
      have : l.get ⟨i', hi'⟩ = StepStatus.skipped := hall _ (l.get_mem _ _)
      simpa using this

theorem orchestrate_steps_eq {σ : Type} (client : AgentClientModel σ)
    (chain : List ChainItem) (config : OrchestrationConfig)
    (oid st ct : String) (s0 : σ) :
    (WorkflowOrchestrator.orchestrate client chain config oid st ct s0).1.steps =
      (orchLoop client (config.continueOnFailure.getD false)
        (config.payloadTransformer.getD defaultTransformer) (normalizeChain chain) 0
        { currentPayload := config.initialPayload.getD (.obj []), totalSpentUSDC := 0,
          lastSuccessResult := .undefined, hasFailure := false, clientState := s0 }).1 := rfl

theorem orchestrate_totalSpent_eq {σ : Type} (client : AgentClientModel σ)
    (chain : List ChainItem) (config : OrchestrationConfig)
    (oid st ct : String) (s0 : σ) :
    (WorkflowOrchestrator.orchestrate client chain config oid st ct s0).1.totalSpentUSDC =
      (orchLoop client (config.continueOnFailure.getD false)
        (config.payloadTransformer.getD defaultTransformer) (normalizeChain chain) 0
        { currentPayload := config.initialPayload.getD (.obj []), totalSpentUSDC := 0,
          lastSuccessResult := .undefined, hasFailure := false, clientState := s0 }).2.totalSpentUSDC := rfl

-- ── C3 ──────────────────────────────────────────────────────────────────────

/-- The always-successful client paying 1 USDC per step, over a unit state. -/
def exClientC3 : AgentClientModel Unit :=
  { invoke := fun _ _ u =>
      (.ok { success := true, result := .num 1, meta := some { pricePaid := some 1 },
             paymentUsed := some "pp" }, u) }

/-- Counterexample to C3 as stated: with a payload transformer that faults
after the first step, the first step is retroactively recorded `failed`
(so no step ends with status `success`), yet `totalSpentUSDC` still
carries the 1 USDC spent on it. -/
theorem orchestrate_totalSpent_cex :
    ((WorkflowOrchestrator.orchestrate exClientC3 [ChainItem.name ("A"), ChainItem.name ("B")]
        { payloadTransformer := some (fun _ _ _ => .error "boom") } ("o") ("t0") ("t1")
        ()).1.steps.map StepResult.status = [StepStatus.failed, StepStatus.skipped]) ∧
    ((WorkflowOrchestrator.orchestrate exClientC3 [ChainItem.name ("A"), ChainItem.name ("B")]
        { payloadTransformer := some (fun _ _ _ => .error "boom") } ("o") ("t0") ("t1")
        ()).1.totalSpentUSDC = 1) ∧
    (sumSpent (((WorkflowOrchestrator.orchestrate exClientC3
        [ChainItem.name ("A"), ChainItem.name ("B")]
        { payloadTransformer := some (fun _ _ _ => .error "boom") } ("o") ("t0") ("t1")
        ()).1.steps).filter (fun s => s.status = StepStatus.success)) = 0) := by
  refine ⟨by decide, ?_, by decide⟩
  show (0 : ℚ) + ((some (1 : ℚ)).getD 0) = 1
  norm_num

/-- C3 (amended): `totalSpentUSDC` equals the sum of the `spentUSDC`
amounts recorded on the steps — `spentUSDC` is set exactly on steps that
succeeded at execution time, and a step retroactively flipped to `failed`
by a transformer fault keeps (and still contributes) its spend. -/
theorem orchestrate_totalSpent_spec {σ : Type} (client : AgentClientModel σ)
    (chain : List ChainItem) (config : OrchestrationConfig)
    (oid st ct : String) (s0 : σ) :
    (WorkflowOrchestrator.orchestrate client chain config oid st ct s0).1.totalSpentUSDC =
      sumSpent (WorkflowOrchestrator.orchestrate client chain config oid st ct s0).1.steps := by
  rw [orchestrate_totalSpent_eq, orchestrate_steps_eq, orchLoop_spend]
  norm_num

-- ── C6 ──────────────────────────────────────────────────────────────────────

/-- The three-step example client: `B` fails, everything else succeeds,
and the state counts how often `invoke` actually ran. -/
def exClient : AgentClientModel Nat :=
  { invoke := fun name _ n =>
      (if name = "B" then .ok { success := false, error := some "boom" }
       else .ok { success := true, result := .num 1 }, n + 1) }


theorem stopShape_skip_has_earlier_fail? (S : List StepStatus) (h : StopShape S) :
    ∀ i, S.get? i = some StepStatus.skipped →
      ∃ j, j < i ∧ S.get? j = some StepStatus.failed := by
  induction h with
  | nil =>
    intro i hi
    simp at hi
  | succOk l hl ih =>
    intro i hi
    cases i with
    | zero => simp at hi
    | succ i' =>
      obtain ⟨j, hji, hjf⟩ := ih i' (by simpa using hi)
      exact ⟨j + 1, by omega, by simpa using hjf⟩
  | fails l hall =>
    intro i hi
    cases i with
    | zero => simp at hi
    | succ i' => exact ⟨0, by omega, rfl⟩

theorem stopShape_fail_then_skip? (S : List StepStatus) (h : StopShape S) :
    ∀ i j, j < i → i < S.length → S.get? j = some StepStatus.failed →
      S.get? i = some StepStatus.skipped := by
  induction h with
  | nil =>
    intro i j _ hi
    simp at hi
  | succOk l hl ih =>
    intro i j hji hi hjf
    cases j with
    | zero => simp at hjf
    | succ j' =>
      cases i with
      | zero => omega
      | succ i' =>
        have := ih i' j' (by omega) (by simpa using hi) (by simpa using hjf)
        simpa using this
  | fails l hall =>
    intro i j hji hi hjf
    cases i with
    | zero => omega
    | succ i' =>
      have hi' : i' < l.length := by simpa using hi
      have hmem : l.get ⟨i', hi'⟩ ∈ l := l.get_mem _ _
      have : l.get? i' = some (l.get ⟨i', hi'⟩) := List.get?_eq_get hi'
      rw [List.get?_cons_succ, this, hall _ hmem]

/-- C6: a `skipped` step occurs only under stop-on-failure after an
earlier `failed` step; under stop-on-failure every step after a failure is
recorded `skipped`; and the chain `[A, B, C]` with `B` failing yields
statuses `[success, failed, skipped]`, overall status `failed`, with the
client invoked exactly twice (the skipped step is never invoked). -/
theorem orchestrate_skip_spec {σ : Type} (client : AgentClientModel σ)
    (chain : List ChainItem) (config : OrchestrationConfig)
    (oid st ct : String) (s0 : σ) :
    (∀ i e,
      (WorkflowOrchestrator.orchestrate client chain config oid st ct s0).1.steps.get? i =
        some e → e.status = StepStatus.skipped →
      config.continueOnFailure.getD false = false ∧
      ∃ j e', j < i ∧
        (WorkflowOrchestrator.orchestrate client chain config oid st ct s0).1.steps.get? j =
          some e' ∧ e'.status = StepStatus.failed) ∧
    (config.continueOnFailure.getD false = false →
      ∀ i j e e', j < i →
        (WorkflowOrchestrator.orchestrate client chain config oid st ct s0).1.steps.get? j =
          some e' → e'.status = StepStatus.failed →
        (WorkflowOrchestrator.orchestrate client chain config oid st ct s0).1.steps.get? i =
          some e → e.status = StepStatus.skipped) ∧
    ((WorkflowOrchestrator.orchestrate exClient
        [ChainItem.name ("A"), ChainItem.name ("B"), ChainItem.name ("C")] {} ("o") ("t0")
        ("t1") 0).1.steps.map StepResult.status =
      [StepStatus.success, StepStatus.failed, StepStatus.skipped]) ∧
    ((WorkflowOrchestrator.orchestrate exClient
        [ChainItem.name ("A"), ChainItem.name ("B"), ChainItem.name ("C")] {} ("o") ("t0")
        ("t1") 0).1.status = OrchStatus.failed) ∧
    ((WorkflowOrchestrator.orchestrate exClient
        [ChainItem.name ("A"), ChainItem.name ("B"), ChainItem.name ("C")] {} ("o") ("t0")
        ("t1") 0).2 = 2) := by
  refine ⟨?_, ?_, by decide, by decide, by decide⟩
  · intro i e hget hskip
    rw [orchestrate_steps_eq] at hget
    rcases hcof : config.continueOnFailure.getD false with _ | _
    · rw [hcof] at hget
      have hshape := orchLoop_stopShape client
        (config.payloadTransformer.getD defaultTransformer) (normalizeChain chain) 0
        { currentPayload := config.initialPayload.getD (.obj []), totalSpentUSDC := 0,
          lastSuccessResult := .undefined, hasFailure := false, clientState := s0 } rfl
      have hmget : ((orchLoop client false
          (config.payloadTransformer.getD defaultTransformer) (normalizeChain chain) 0
          { currentPayload := config.initialPayload.getD (.obj []), totalSpentUSDC := 0,
            lastSuccessResult := .undefined, hasFailure := false,
            clientState := s0 }).1.map StepResult.status).get? i =
          some StepStatus.skipped := by
        rw [List.get?_map, hget]
        simp [hskip]
      obtain ⟨j, hji, hjf⟩ := stopShape_skip_has_earlier_fail? _ hshape i hmget
      rw [List.get?_map] at hjf
      rcases hoj : (orchLoop client false
          (config.payloadTransformer.getD defaultTransformer) (normalizeChain chain) 0
          { currentPayload := config.initialPayload.getD (.obj []), totalSpentUSDC := 0,
            lastSuccessResult := .undefined, hasFailure := false,
            clientState := s0 }).1.get? j with _ | e'
      · rw [hoj] at hjf
        simp at hjf
      · rw [hoj] at hjf
        simp only [Option.map_some'] at hjf
        refine ⟨rfl, j, e', hji, ?_, ?_⟩
        · rw [orchestrate_steps_eq, hcof]
          exact hoj
        · exact Option.some.inj hjf
    · exfalso
      rw [hcof] at hget
      have hmem : e ∈ (orchLoop client true
          (config.payloadTransformer.getD defaultTransformer) (normalizeChain chain) 0
          { currentPayload := config.initialPayload.getD (.obj []), totalSpentUSDC := 0,
            lastSuccessResult := .undefined, hasFailure := false, clientState := s0 }).1 :=
        List.get?_mem hget
      exact orchLoop_no_skip_cof client (config.payloadTransformer.getD defaultTransformer)
        (normalizeChain chain) 0 _ e hmem hskip
  · intro hcof i j e e' hji hgetj hfail hgeti
    rw [orchestrate_steps_eq, hcof] at hgetj hgeti
    have hshape := orchLoop_stopShape client
      (config.payloadTransformer.getD defaultTransformer) (normalizeChain chain) 0
      { currentPayload := config.initialPayload.getD (.obj []), totalSpentUSDC := 0,
        lastSuccessResult := .undefined, hasFailure := false, clientState := s0 } rfl
    have hmgetj : ((orchLoop client false
        (config.payloadTransformer.getD defaultTransformer) (normalizeChain chain) 0
        { currentPayload := config.initialPayload.getD (.obj []), totalSpentUSDC := 0,
          lastSuccessResult := .undefined, hasFailure := false,
          clientState := s0 }).1.map StepResult.status).get? j =
        some StepStatus.failed := by
      rw [List.get?_map, hgetj]
      simp [hfail]
    obtain ⟨hl, _⟩ := List.get?_eq_some.mp hgeti
    have hilen : i < ((orchLoop client false
        (config.payloadTransformer.getD defaultTransformer) (normalizeChain chain) 0
        { currentPayload := config.initialPayload.getD (.obj []), totalSpentUSDC := 0,
          lastSuccessResult := .undefined, hasFailure := false,
          clientState := s0 }).1.map StepResult.status).length := by
      rw [List.length_map]
      exact hl
    have := stopShape_fail_then_skip? _ hshape i j hji hilen hmgetj
    rw [List.get?_map, hgeti] at this
    simp only [Option.map_some'] at this
    exact Option.some.inj this

/-- Witness for C6: on the three-step example run, step 2 is skipped, and
the characterization yields stop-on-failure plus an earlier failed step. -/
theorem orchestrate_skip_spec_witness :
    ({} : OrchestrationConfig).continueOnFailure.getD false = false ∧
    ∃ j e', j < 2 ∧
      (WorkflowOrchestrator.orchestrate exClient
        [ChainItem.name ("A"), ChainItem.name ("B"), ChainItem.name ("C")] {} ("o") ("t0")
        ("t1") 0).1.steps.get? j = some e' ∧ e'.status = StepStatus.failed :=
  (orchestrate_skip_spec exClient
    [ChainItem.name ("A"), ChainItem.name ("B"), ChainItem.name ("C")] {} ("o") ("t0")
    ("t1") 0).1 2
    { workflowName := "C", stepIndex := 2, status := StepStatus.skipped } rfl rfl
